import Mathlib

/-!
Verification development for the FHETaxiDispatch repository.

The development shallowly embeds the two Solidity contracts present in the
repository (`src/contracts/PauserSet.sol` and `src/contracts/TaxiGateway.sol`)
and, where the `PrivateTaxiDispatch` contract itself is absent from the
repository snapshot, a model of the dispatch engine reconstructed from the
design specification (spec.md §4.3), the repository's own documentation
(MIGRATION_GUIDE.md, SECURITY_AND_PERFORMANCE.md) and its test suite.

Conventions of the embedding:
* Ethereum addresses are modelled as `Nat`, with `0` playing the role of
  `address(0)` (the null address).
* `uint` machine words are modelled as `Nat`; none of the verified
  operations can overflow a 256-bit word on the inputs the contracts accept,
  and the dispatch counters only ever increment by one.
* A Solidity `revert`/failed `require` is modelled as `Except.error e`; the
  ledger substrate's all-or-nothing execution means a reverted call leaves
  the contract state unchanged, which the embedding renders by the failed
  call returning no successor state.
* External calls (the decryption contract, the KMS generation contract) are
  modelled by explicit oracle parameters: a success flag for the call and,
  for `requestDecryption`, the `keccak256` id computation as an abstract
  function parameter `keccak` of the packed tuple (timestamp, sender, bytes).
-/

/-- Ethereum addresses, with `0` standing for `address(0)`. -/
abbrev Addr := Nat

/-- Custom errors of `PauserSet.sol`. -/
inductive PauserSetError where
  | NoPausersProvided
  | ZeroAddressNotAllowed
  | DuplicatePauserAddress (pauser : Addr)
  | IndexOutOfBounds (index : Nat) (length : Nat)
deriving DecidableEq, Repr

/-- Storage of the `PauserSet` contract: the `pausers` membership mapping and
the `pauserList` enumeration array. -/
structure PauserSetState where
  pausers : Addr → Bool
  pauserList : List Addr

namespace PauserSet

/-- Zero-initialised storage, before the constructor body runs. -/
def initState : PauserSetState :=
  { pausers := fun _ => false, pauserList := [] }

/-- The constructor's `for` loop over the `_pausers` argument: each entry is
checked against `address(0)` and against the membership mapping, then recorded
in both the mapping and the array. -/
def addLoop : PauserSetState → List Addr → Except PauserSetError PauserSetState
  | s, [] => .ok s
  | s, p :: rest =>
    if p = 0 then .error .ZeroAddressNotAllowed
    else if s.pausers p then .error (.DuplicatePauserAddress p)
    else addLoop { pausers := fun a => if a = p then true else s.pausers a,
                   pauserList := s.pauserList ++ [p] } rest

/-- The `PauserSet` constructor: rejects an empty list, then runs the loop. -/
def construct (input : List Addr) : Except PauserSetError PauserSetState :=
  if input.length = 0 then .error .NoPausersProvided
  else addLoop initState input

/-- `isPauser`: lookup in the membership mapping. -/
def isPauser (s : PauserSetState) (a : Addr) : Bool := s.pausers a

/-- `getPauserCount`: length of the enumeration array. -/
def getPauserCount (s : PauserSetState) : Nat := s.pauserList.length

/-- `getPauserAtIndex`: bounds-checked array access. -/
def getPauserAtIndex (s : PauserSetState) (i : Nat) : Except PauserSetError Addr :=
  if s.pauserList.length ≤ i then .error (.IndexOutOfBounds i s.pauserList.length)
  else .ok (s.pauserList.getD i 0)

/-- `getAllPausers`: returns the enumeration array. -/
def getAllPausers (s : PauserSetState) : List Addr := s.pauserList

end PauserSet

/-- Custom errors of `TaxiGateway.sol`. -/
inductive GatewayError where
  | InvalidPauserSetAddress
  | InvalidKMSGenerationAddress
  | InvalidDecryptionContract
  | CallerNotOwner
  | CallerNotAuthorizedPauser
  | ContractIsPaused
  | ContractIsNotPaused
  | DecryptionContractNotSet
  | EmptyCiphertext
  | EmptyData
  | KMSGenerationCallFailed
  | DecryptionRequestFailed
deriving DecidableEq, Repr

/-- Storage of the `TaxiGateway` contract.  `pauserSet` and
`kmsGenerationContract` are `immutable` in the source; `paused`, `owner` and
`decryptionContract` are ordinary storage slots, but no function ever writes
`owner` after the constructor. -/
structure GatewayState where
  pauserSet : PauserSetState
  kmsGenerationContract : Addr
  paused : Bool
  owner : Addr
  decryptionContract : Addr

/-- Return shape of `TaxiGateway.getGatewayStatus`. -/
structure GatewayStatus where
  isPaused : Bool
  pauserCount : Nat
  kmsConfigured : Bool
  decryptionConfigured : Bool
deriving DecidableEq, Repr

namespace TaxiGateway

/-- The `TaxiGateway` constructor.  `psAddr` is the address the `PauserSet`
reference is deployed at (only its zero-check is observable) and `ps` the
state of that contract; `decryptionContract` starts at the Solidity default
`address(0)`. -/
def construct (sender psAddr kms : Addr) (ps : PauserSetState) :
    Except GatewayError GatewayState :=
  if psAddr = 0 then .error .InvalidPauserSetAddress
  else if kms = 0 then .error .InvalidKMSGenerationAddress
  else .ok { pauserSet := ps, kmsGenerationContract := kms, paused := false,
             owner := sender, decryptionContract := 0 }

/-- `setDecryptionContract`, guarded by `onlyOwner` and a zero-address check. -/
def setDecryptionContract (sender dc : Addr) (s : GatewayState) :
    Except GatewayError GatewayState :=
  if sender ≠ s.owner then .error .CallerNotOwner
  else if dc = 0 then .error .InvalidDecryptionContract
  else .ok { s with decryptionContract := dc }

/-- `pause`, with modifiers `onlyPauser` then `whenNotPaused` in that order. -/
def pause (sender : Addr) (s : GatewayState) : Except GatewayError GatewayState :=
  if PauserSet.isPauser s.pauserSet sender = false then .error .CallerNotAuthorizedPauser
  else if s.paused then .error .ContractIsPaused
  else .ok { s with paused := true }

/-- `unpause`, with modifiers `onlyOwner` then `whenPaused` in that order. -/
def unpause (sender : Addr) (s : GatewayState) : Except GatewayError GatewayState :=
  if sender ≠ s.owner then .error .CallerNotOwner
  else if s.paused = false then .error .ContractIsNotPaused
  else .ok { s with paused := false }

/-- `isPublicDecryptAllowed`: a total (never-reverting) view function. -/
def isPublicDecryptAllowed (s : GatewayState) (requester : Addr) : Bool :=
  if s.paused then false
  else if requester = 0 then false
  else if s.decryptionContract = 0 then false
  else true

/-- `isOperational`: negation of the pause flag. -/
def isOperational (s : GatewayState) : Bool := !s.paused

/-- `isPauseAuthorized`: delegated membership query. -/
def isPauseAuthorized (s : GatewayState) (a : Addr) : Bool :=
  PauserSet.isPauser s.pauserSet a

/-- `requestDecryption`.  The `whenNotPaused` modifier runs first, then the
decryption-contract and ciphertext checks; the request id is
`keccak256(abi.encodePacked(block.timestamp, msg.sender, _ciphertext))`,
modelled by the abstract hash parameter `keccak`; `brokerOk` is the success
flag of the low-level call to the decryption contract. -/
def requestDecryption (keccak : Nat → Addr → List Nat → Nat) (brokerOk : Bool)
    (ts : Nat) (sender : Addr) (ct : List Nat) (s : GatewayState) :
    Except GatewayError (GatewayState × Nat) :=
  if s.paused then .error .ContractIsPaused
  else if s.decryptionContract = 0 then .error .DecryptionContractNotSet
  else if ct.length = 0 then .error .EmptyCiphertext
  else if brokerOk = false then .error .DecryptionRequestFailed
  else .ok (s, keccak ts sender ct)

/-- `callKMSGeneration`.  `kmsOk` is the success flag and `ret` the returned
bytes of the low-level call to the KMS generation contract. -/
def callKMSGeneration (kmsOk : Bool) (ret : List Nat) (sender : Addr)
    (data : List Nat) (s : GatewayState) :
    Except GatewayError (GatewayState × List Nat) :=
  if s.paused then .error .ContractIsPaused
  else if data.length = 0 then .error .EmptyData
  else if kmsOk = false then .error .KMSGenerationCallFailed
  else .ok (s, ret)

/-- `getPauserCount` on the gateway, delegated to the pauser set. -/
def getPauserCount (s : GatewayState) : Nat :=
  PauserSet.getPauserCount s.pauserSet

/-- `isKMSGenerationConfigured`: the KMS reference is non-zero. -/
def isKMSGenerationConfigured (s : GatewayState) : Bool :=
  s.kmsGenerationContract != 0

/-- `getGatewayStatus`: the four status components. -/
def getGatewayStatus (s : GatewayState) : GatewayStatus :=
  { isPaused := s.paused,
    pauserCount := PauserSet.getPauserCount s.pauserSet,
    kmsConfigured := s.kmsGenerationContract != 0,
    decryptionConfigured := s.decryptionContract != 0 }

end TaxiGateway

/-- The external (state-affecting) entry points of `TaxiGateway`, as labels
for the gateway transition system.  View functions do not write storage and
are therefore not transitions. -/
inductive GatewayOp where
  | pause (sender : Addr)
  | unpause (sender : Addr)
  | setDecryptionContract (sender dc : Addr)
  | requestDecryption (keccak : Nat → Addr → List Nat → Nat) (brokerOk : Bool)
      (ts : Nat) (sender : Addr) (ct : List Nat)
  | callKMSGeneration (kmsOk : Bool) (ret : List Nat) (sender : Addr) (data : List Nat)

/-- The caller (`msg.sender`) of a gateway operation. -/
def GatewayOp.sender : GatewayOp → Addr
  | .pause c => c
  | .unpause c => c
  | .setDecryptionContract c _ => c
  | .requestDecryption _ _ _ c _ => c
  | .callKMSGeneration _ _ c _ => c

/-- One transition of the gateway: dispatch to the entry point named by the
label, discarding return values. -/
def applyGOp : GatewayOp → GatewayState → Except GatewayError GatewayState
  | .pause c, s => TaxiGateway.pause c s
  | .unpause c, s => TaxiGateway.unpause c s
  | .setDecryptionContract c dc, s => TaxiGateway.setDecryptionContract c dc s
  | .requestDecryption k b ts c ct, s =>
      (TaxiGateway.requestDecryption k b ts c ct s).map Prod.fst
  | .callKMSGeneration ok ret c d, s =>
      (TaxiGateway.callKMSGeneration ok ret c d s).map Prod.fst

/-- Reachable gateway states: a successfully constructed gateway followed by
any sequence of successful entry-point calls. -/
inductive GReachable : GatewayState → Prop where
  | init (sender psAddr kms : Addr) (ps : PauserSetState) (s : GatewayState) :
      TaxiGateway.construct sender psAddr kms ps = .ok s → GReachable s
  | step (s : GatewayState) (op : GatewayOp) (s' : GatewayState) :
      GReachable s → applyGOp op s = .ok s' → GReachable s'

/-- Modelled from the spec: revert conditions of the `PrivateTaxiDispatch`
contract, whose Solidity source is missing from the repository snapshot (only
its tests, ABI, documentation and deploy scripts are present).  Names follow
the spec's error taxonomy (§7); each corresponds to a `require` revert string
observed in the test suite (for example `SystemPaused` is
"System paused by gateway" and `NotAuthorized` is "Not authorized"). -/
inductive DispatchError where
  | SystemPaused
  | AlreadyRegistered
  | DriverNotRegistered
  | DriverNotAvailable
  | InvalidRequest
  | RequestNotActive
  | TooManyOffers
  | NotYourRequest
  | InvalidOfferIndex
  | AlreadyAssigned
  | NotAssignedDriver
  | InvalidRating
  | CannotCancelAssigned
  | NotAuthorized
  | InvalidGatewayAddress
  | UseGatewayPause
deriving DecidableEq, Repr

/-- Modelled from the spec: the Driver record of the missing
`PrivateTaxiDispatch` contract (spec §3 **Driver**).  The encrypted location
and running rating are carried as opaque `Nat` blobs that the dispatch logic
never branches on. -/
structure Driver where
  isRegistered : Bool
  isAvailable : Bool
  totalRides : Nat
  registrationTime : Nat
  encLat : Nat
  encLng : Nat
  encRating : Nat
deriving DecidableEq, Repr

/-- Modelled from the spec: an Offer of the missing `PrivateTaxiDispatch`
contract (spec §3 **Offer**): owning driver, opaque fare and time, timestamp. -/
structure Offer where
  driver : Addr
  encFare : Nat
  encTime : Nat
  timestamp : Nat
deriving DecidableEq, Repr

/-- Modelled from the spec: a RideRequest of the missing
`PrivateTaxiDispatch` contract (spec §3 **RideRequest**).  `assignedDriver = 0`
renders Solidity's `address(0)`, meaning "no driver assigned yet". -/
structure RideRequest where
  passenger : Addr
  encPickupLat : Nat
  encPickupLng : Nat
  encDestLat : Nat
  encDestLng : Nat
  encMaxFare : Nat
  assignedDriver : Addr
  isCompleted : Bool
  isCancelled : Bool
  requestTime : Nat
  offers : List Offer
deriving DecidableEq, Repr

/-- Modelled from the spec: the event log entries of the dispatch engine
(spec §6), matching the events declared in the ABI of
`src/config/contracts.ts`. -/
inductive DEvent where
  | DriverRegistered (driver : Addr) (time : Nat)
  | LocationUpdated (driver : Addr)
  | RideRequested (requestId : Nat) (passenger : Addr)
  | OfferSubmitted (requestId : Nat) (driver : Addr)
  | RideMatched (requestId : Nat) (driver : Addr) (passenger : Addr)
  | RideCompleted (requestId : Nat) (driver : Addr) (passenger : Addr)
  | RideCancelled (requestId : Nat) (passenger : Addr)
deriving DecidableEq, Repr

/-- Modelled from the spec: the storage of the missing `PrivateTaxiDispatch`
contract.  The gateway reference is an address in Solidity; here it is the
referenced gateway's state, with `none` standing for `address(0)` (the tests
show deployment with a zero gateway is permitted). -/
structure DispatchState where
  dispatcher : Addr
  gateway : Option GatewayState
  drivers : Addr → Driver
  requests : Nat → Option RideRequest
  passengerHistory : Addr → List Nat
  driverHistory : Addr → List Nat
  requestCounter : Nat
  driverCounter : Nat
  events : List DEvent

namespace PrivateTaxiDispatch

/-- Modelled from the spec: the zero-valued Driver record a Solidity mapping
returns for an unknown key. -/
def defaultDriver : Driver :=
  { isRegistered := false, isAvailable := false, totalRides := 0,
    registrationTime := 0, encLat := 0, encLng := 0, encRating := 0 }

/-- Modelled from the spec: the offer-list cap the engine enforces
(spec §3: "offers list length bounded ... cap enforced by the engine";
SECURITY_AND_PERFORMANCE.md fixes it at `MAX_OFFERS = 50`). -/
def MAX_OFFERS : Nat := 50

/-- Modelled from the spec: the `PrivateTaxiDispatch` constructor.  It stores
the deployer as `dispatcher` and accepts any gateway address, including
`address(0)` (test "Should deploy without gateway"). -/
def construct (deployer : Addr) (gw : Option GatewayState) : DispatchState :=
  { dispatcher := deployer, gateway := gw,
    drivers := fun _ => defaultDriver,
    requests := fun _ => none,
    passengerHistory := fun _ => [],
    driverHistory := fun _ => [],
    requestCounter := 0, driverCounter := 0, events := [] }

/-- Modelled from the spec: the `whenOperational` guard shared by every
mutating entry point (spec §4.3; MIGRATION_GUIDE.md shows the modifier skips
the gateway consultation when the gateway reference is `address(0)`). -/
def whenOperational (s : DispatchState) : Bool :=
  match s.gateway with
  | none => true
  | some g => TaxiGateway.isOperational g

/-- Modelled from the spec: `register_driver` (spec §4.3). -/
def registerDriver (ts : Nat) (caller : Addr) (s : DispatchState) :
    Except DispatchError DispatchState :=
  if whenOperational s = false then .error .SystemPaused
  else if (s.drivers caller).isRegistered then .error .AlreadyRegistered
  else .ok { s with
    drivers := fun a => if a = caller then
        { isRegistered := true, isAvailable := false, totalRides := 0,
          registrationTime := ts, encLat := 0, encLng := 0, encRating := 0 }
      else s.drivers a,
    driverCounter := s.driverCounter + 1,
    events := s.events ++ [.DriverRegistered caller ts] }

/-- Modelled from the spec: `update_location` (spec §4.3); the opaque
coordinates are stored, never inspected. -/
def updateLocation (caller : Addr) (lat lng : Nat) (s : DispatchState) :
    Except DispatchError DispatchState :=
  if whenOperational s = false then .error .SystemPaused
  else if (s.drivers caller).isRegistered = false then .error .DriverNotRegistered
  else .ok { s with
    drivers := fun a => if a = caller then
        { s.drivers caller with encLat := lat, encLng := lng }
      else s.drivers a,
    events := s.events ++ [.LocationUpdated caller] }

/-- Modelled from the spec: `set_availability` (spec §4.3). -/
def setAvailability (caller : Addr) (v : Bool) (s : DispatchState) :
    Except DispatchError DispatchState :=
  if whenOperational s = false then .error .SystemPaused
  else if (s.drivers caller).isRegistered = false then .error .DriverNotRegistered
  else .ok { s with
    drivers := fun a => if a = caller then
        { s.drivers caller with isAvailable := v }
      else s.drivers a }

/-- Modelled from the spec: `request_ride` (spec §4.3): increments the
request counter to obtain the new id (ids start at 1), creates an Open
request and appends the id to the passenger's history. -/
def requestRide (ts : Nat) (caller : Addr) (pLat pLng dLat dLng maxFare : Nat)
    (s : DispatchState) : Except DispatchError DispatchState :=
  if whenOperational s = false then .error .SystemPaused
  else
    .ok { s with
      requestCounter := s.requestCounter + 1,
      requests := fun i => if i = s.requestCounter + 1 then
          some { passenger := caller, encPickupLat := pLat, encPickupLng := pLng,
                 encDestLat := dLat, encDestLng := dLng, encMaxFare := maxFare,
                 assignedDriver := 0, isCompleted := false, isCancelled := false,
                 requestTime := ts, offers := [] }
        else s.requests i,
      passengerHistory := fun a => if a = caller then
          s.passengerHistory a ++ [s.requestCounter + 1]
        else s.passengerHistory a,
      events := s.events ++ [.RideRequested (s.requestCounter + 1) caller] }

/-- Modelled from the spec: `submit_offer` (spec §4.3), with the spec's check
order: unknown request, unregistered driver, unavailable driver, inactive
request (completed, cancelled or already assigned), offer list at cap. -/
def submitOffer (ts : Nat) (caller : Addr) (rid fare eta : Nat)
    (s : DispatchState) : Except DispatchError DispatchState :=
  if whenOperational s = false then .error .SystemPaused
  else match s.requests rid with
  | none => .error .InvalidRequest
  | some r =>
    if (s.drivers caller).isRegistered = false then .error .DriverNotRegistered
    else if (s.drivers caller).isAvailable = false then .error .DriverNotAvailable
    else if r.isCompleted || r.isCancelled || r.assignedDriver != 0 then
      .error .RequestNotActive
    else if MAX_OFFERS ≤ r.offers.length then .error .TooManyOffers
    else .ok { s with
      requests := fun i => if i = rid then
          some { r with offers := r.offers ++
            [{ driver := caller, encFare := fare, encTime := eta, timestamp := ts }] }
        else s.requests i,
      events := s.events ++ [.OfferSubmitted rid caller] }

/-- Modelled from the spec: `accept_offer` (spec §4.3 and the RideRequest
state machine of §4.3, by which acceptance transitions a request from Open to
Assigned, so a Completed or Cancelled request cannot be accepted).  Sets the
assigned driver from the chosen offer, flips that driver's availability to
false and appends the id to the driver's history. -/
def acceptOffer (caller : Addr) (rid idx : Nat) (s : DispatchState) :
    Except DispatchError DispatchState :=
  if whenOperational s = false then .error .SystemPaused
  else match s.requests rid with
  | none => .error .InvalidRequest
  | some r =>
    if caller ≠ r.passenger then .error .NotYourRequest
    else match r.offers.get? idx with
    | none => .error .InvalidOfferIndex
    | some o =>
      if r.assignedDriver ≠ 0 then .error .AlreadyAssigned
      else if r.isCompleted || r.isCancelled then .error .RequestNotActive
      else .ok { s with
        requests := fun i => if i = rid then
            some { r with assignedDriver := o.driver }
          else s.requests i,
        drivers := fun a => if a = o.driver then
            { s.drivers o.driver with isAvailable := false }
          else s.drivers a,
        driverHistory := fun a => if a = o.driver then
            s.driverHistory a ++ [rid]
          else s.driverHistory a,
        events := s.events ++ [.RideMatched rid o.driver caller] }

/-- Modelled from the spec: `complete_ride` (spec §4.3): only the assigned
driver, only on an active request, with the rating in the closed range 0–100;
sets `completed`, increments the driver's `totalRides`, restores the driver's
availability and folds the rating into the opaque running average
`(old + new * 100) / 2` (spec §9). -/
def completeRide (caller : Addr) (rid rating : Nat) (s : DispatchState) :
    Except DispatchError DispatchState :=
  if whenOperational s = false then .error .SystemPaused
  else match s.requests rid with
  | none => .error .InvalidRequest
  | some r =>
    if caller ≠ r.assignedDriver then .error .NotAssignedDriver
    else if r.isCompleted || r.isCancelled then .error .RequestNotActive
    else if 100 < rating then .error .InvalidRating
    else .ok { s with
      requests := fun i => if i = rid then some { r with isCompleted := true }
        else s.requests i,
      drivers := fun a => if a = caller then
          { s.drivers caller with
            totalRides := (s.drivers caller).totalRides + 1,
            isAvailable := true,
            encRating := ((s.drivers caller).encRating + rating * 100) / 2 }
        else s.drivers a,
      events := s.events ++ [.RideCompleted rid caller r.passenger] }

/-- Modelled from the spec: `cancel_request` (spec §4.3): only the owning
passenger, only while no driver is assigned; sets `cancelled`. -/
def cancelRequest (caller : Addr) (rid : Nat) (s : DispatchState) :
    Except DispatchError DispatchState :=
  if whenOperational s = false then .error .SystemPaused
  else match s.requests rid with
  | none => .error .InvalidRequest
  | some r =>
    if caller ≠ r.passenger then .error .NotYourRequest
    else if r.assignedDriver ≠ 0 then .error .CannotCancelAssigned
    else .ok { s with
      requests := fun i => if i = rid then some { r with isCancelled := true }
        else s.requests i,
      events := s.events ++ [.RideCancelled rid caller] }

/-- Modelled from the spec: `setGateway`, present in the tests of the missing
contract: dispatcher-only, rejecting the zero address, otherwise replacing
the gateway reference. -/
def setGateway (caller : Addr) (gw : Option GatewayState) (s : DispatchState) :
    Except DispatchError DispatchState :=
  if caller ≠ s.dispatcher then .error .NotAuthorized
  else match gw with
  | none => .error .InvalidGatewayAddress
  | some g => .ok { s with gateway := some g }

/-- Modelled from the spec: `emergencyPause`, present in the tests of the
missing contract: reverts when a gateway is configured ("Use gateway pause
function") and is a no-op otherwise. -/
def emergencyPause (s : DispatchState) : Except DispatchError DispatchState :=
  match s.gateway with
  | some _ => .error .UseGatewayPause
  | none => .ok s

/-- Modelled from the spec: `is_system_operational` query (never fails). -/
def isSystemOperational (s : DispatchState) : Bool := whenOperational s

end PrivateTaxiDispatch

/-- Modelled from the spec: the labels of the dispatch transition system —
every state-mutating entry point of the engine, plus `gatewayExtern`, which
lets the referenced gateway contract take one of its own transitions between
dispatch calls (spec §5: the pause flag may change between calls). -/
inductive DispatchOp where
  | registerDriver (ts : Nat) (caller : Addr)
  | updateLocation (caller : Addr) (lat lng : Nat)
  | setAvailability (caller : Addr) (v : Bool)
  | requestRide (ts : Nat) (caller : Addr) (pLat pLng dLat dLng maxFare : Nat)
  | submitOffer (ts : Nat) (caller : Addr) (rid fare eta : Nat)
  | acceptOffer (caller : Addr) (rid idx : Nat)
  | completeRide (caller : Addr) (rid rating : Nat)
  | cancelRequest (caller : Addr) (rid : Nat)
  | setGateway (caller : Addr) (gw : Option GatewayState)
  | emergencyPause (caller : Addr)
  | gatewayExtern (gop : GatewayOp)

/-- The caller (`msg.sender`) of a dispatch operation. -/
def DispatchOp.sender : DispatchOp → Addr
  | .registerDriver _ c => c
  | .updateLocation c _ _ => c
  | .setAvailability c _ => c
  | .requestRide _ c _ _ _ _ _ => c
  | .submitOffer _ c _ _ _ => c
  | .acceptOffer c _ _ => c
  | .completeRide c _ _ => c
  | .cancelRequest c _ => c
  | .setGateway c _ => c
  | .emergencyPause c => c
  | .gatewayExtern gop => gop.sender

/-- One transition of the dispatch engine. -/
def applyDOp : DispatchOp → DispatchState → Except DispatchError DispatchState
  | .registerDriver ts c, s => PrivateTaxiDispatch.registerDriver ts c s
  | .updateLocation c lat lng, s => PrivateTaxiDispatch.updateLocation c lat lng s
  | .setAvailability c v, s => PrivateTaxiDispatch.setAvailability c v s
  | .requestRide ts c a b d e f, s => PrivateTaxiDispatch.requestRide ts c a b d e f s
  | .submitOffer ts c rid fare eta, s => PrivateTaxiDispatch.submitOffer ts c rid fare eta s
  | .acceptOffer c rid idx, s => PrivateTaxiDispatch.acceptOffer c rid idx s
  | .completeRide c rid rating, s => PrivateTaxiDispatch.completeRide c rid rating s
  | .cancelRequest c rid, s => PrivateTaxiDispatch.cancelRequest c rid s
  | .setGateway c gw, s => PrivateTaxiDispatch.setGateway c gw s
  | .emergencyPause _, s => PrivateTaxiDispatch.emergencyPause s
  | .gatewayExtern gop, s =>
    match s.gateway with
    | none => .ok s
    | some g =>
      match applyGOp gop g with
      | .ok g' => .ok { s with gateway := some g' }
      | .error _ => .ok s

/-- Reachable dispatch states: a freshly constructed engine followed by any
sequence of successful transitions.  Callers are required to be non-zero,
reflecting that `msg.sender` is never `address(0)` on the ledger substrate. -/
inductive DReachable : DispatchState → Prop where
  | init (deployer : Addr) (gw : Option GatewayState) :
      DReachable (PrivateTaxiDispatch.construct deployer gw)
  | step (s : DispatchState) (op : DispatchOp) (s' : DispatchState) :
      DReachable s → op.sender ≠ 0 → applyDOp op s = .ok s' → DReachable s'

/-- The observable status of a ride-request slot, per the spec's RideRequest
state machine (spec §4.3). -/
inductive ReqStatus where
  | missing
  | opened
  | assigned
  | completed
  | cancelled
deriving DecidableEq, Repr

/-- Status of request slot `id` in a dispatch state. -/
def reqStatus (s : DispatchState) (id : Nat) : ReqStatus :=
  match s.requests id with
  | none => .missing
  | some r =>
    if r.isCompleted then .completed
    else if r.isCancelled then .cancelled
    else if r.assignedDriver ≠ 0 then .assigned
    else .opened

/-- The transitions the spec's RideRequest state machine allows within one
step: stutter, creation, acceptance, cancellation, completion. -/
def statusStep (a b : ReqStatus) : Prop :=
  a = b ∨ (a = .missing ∧ b = .opened) ∨ (a = .opened ∧ b = .assigned) ∨
  (a = .opened ∧ b = .cancelled) ∨ (a = .assigned ∧ b = .completed)

instance (a b : ReqStatus) : Decidable (statusStep a b) := by
  unfold statusStep; infer_instance

/-- The inductive invariant of the dispatch engine used to settle the
state-machine and offer-cap claims: no request is simultaneously completed
and cancelled; a completed request has an assigned driver; offer owners are
non-zero; slots above the counter are empty; no offer list exceeds the cap. -/
def DInv (s : DispatchState) : Prop :=
  (∀ id r, s.requests id = some r → ¬(r.isCompleted = true ∧ r.isCancelled = true)) ∧
  (∀ id r, s.requests id = some r → r.isCompleted = true → r.assignedDriver ≠ 0) ∧
  (∀ id r o, s.requests id = some r → o ∈ r.offers → o.driver ≠ 0) ∧
  (∀ id, s.requestCounter < id → s.requests id = none) ∧
  (∀ id r, s.requests id = some r → r.offers.length ≤ PrivateTaxiDispatch.MAX_OFFERS)

/-- A concrete stand-in for the `keccak256` id computation, used in witness
instantiations (any deterministic function is admissible for them). -/
def keccak0 : Nat → Addr → List Nat → Nat :=
  fun ts c ct => ts * 1000003 + c * 1009 + ct.length

/-- A concrete pauser set whose only member is address 1. -/
def psW : PauserSetState :=
  { pausers := fun a => a == 1, pauserList := [1] }

/-- A concrete operational gateway with a decryption contract configured. -/
def gwOperW : GatewayState :=
  { pauserSet := psW, kmsGenerationContract := 9, paused := false,
    owner := 2, decryptionContract := 7 }

/-- A concrete paused gateway with no decryption contract configured. -/
def gwPausedW : GatewayState :=
  { pauserSet := psW, kmsGenerationContract := 9, paused := true,
    owner := 2, decryptionContract := 0 }

/-- The pauser-set state produced by the constructor on `[1, 2]`. -/
def psBuilt : PauserSetState :=
  (PauserSet.construct [1, 2]).toOption.getD PauserSet.initState

/-- The gateway state produced by the constructor for deployer 2. -/
def gwBuilt : GatewayState :=
  (TaxiGateway.construct 2 1 9 psW).toOption.getD gwOperW

/-- A dispatch engine wired to the concrete paused gateway. -/
def dPausedW : DispatchState := PrivateTaxiDispatch.construct 3 (some gwPausedW)

/-- A registered, currently unavailable driver record (the state a driver is
in right after accepting a ride). -/
def drvW : Driver :=
  { isRegistered := true, isAvailable := false, totalRides := 0,
    registrationTime := 0, encLat := 0, encLng := 0, encRating := 0 }

/-- A registered, available driver record. -/
def drvAvailW : Driver := { drvW with isAvailable := true }

/-- A concrete offer by driver 7. -/
def offerW : Offer :=
  { driver := 7, encFare := 4500, encTime := 600, timestamp := 0 }

/-- A concrete request by passenger 4 assigned to driver 7. -/
def reqAssignedW : RideRequest :=
  { passenger := 4, encPickupLat := 1, encPickupLng := 2, encDestLat := 3,
    encDestLng := 4, encMaxFare := 5000, assignedDriver := 7,
    isCompleted := false, isCancelled := false, requestTime := 0,
    offers := [offerW] }

/-- A concrete engine state holding the assigned request `reqAssignedW`. -/
def dAssignedW : DispatchState :=
  { dispatcher := 3, gateway := none,
    drivers := fun a => if a = 7 then drvW else PrivateTaxiDispatch.defaultDriver,
    requests := fun i => if i = 1 then some reqAssignedW else none,
    passengerHistory := fun a => if a = 4 then [1] else [],
    driverHistory := fun a => if a = 7 then [1] else [],
    requestCounter := 1, driverCounter := 1, events := [] }

/-- The per-slot guarantees of one engine transition, per the spec's
RideRequest state machine: each request slot makes an allowed move (or
stutters); requests are never deleted and an assigned driver never changes;
and each of the three proper transitions is attributable to the one entry
point the spec names for it. -/
def RequestMachineStep (op : DispatchOp) (s s' : DispatchState) : Prop :=
  ∀ id,
    statusStep (reqStatus s id) (reqStatus s' id) ∧
    (∀ r, s.requests id = some r → ∃ r', s'.requests id = some r' ∧
      (r.assignedDriver ≠ 0 → r'.assignedDriver = r.assignedDriver)) ∧
    (reqStatus s id = .opened → reqStatus s' id = .assigned →
      ∃ c i, op = .acceptOffer c id i) ∧
    (reqStatus s id = .opened → reqStatus s' id = .cancelled →
      ∃ c, op = .cancelRequest c id) ∧
    (reqStatus s id = .assigned → reqStatus s' id = .completed →
      ∃ c rt, op = .completeRide c id rt)

/-- The freshly deployed engine (no gateway), used in witnesses. -/
def dInit0 : DispatchState := PrivateTaxiDispatch.construct 3 none

/-- The engine after passenger 4 requests the first ride. -/
def dReq1 : DispatchState :=
  (applyDOp (.requestRide 0 4 1 2 3 4 5) dInit0).toOption.getD dInit0

/-- A full offer list: the cap's worth of copies of the concrete offer. -/
def reqFullW : RideRequest :=
  { passenger := 4, encPickupLat := 1, encPickupLng := 2, encDestLat := 3,
    encDestLng := 4, encMaxFare := 5000, assignedDriver := 0,
    isCompleted := false, isCancelled := false, requestTime := 0,
    offers := List.replicate 50 offerW }

/-- An open request with an empty offer list. -/
def reqEmptyW : RideRequest :=
  { passenger := 4, encPickupLat := 1, encPickupLng := 2, encDestLat := 3,
    encDestLng := 4, encMaxFare := 5000, assignedDriver := 0,
    isCompleted := false, isCancelled := false, requestTime := 0,
    offers := [] }

/-- A concrete engine state with a full request (id 1) and an empty one
(id 2), and an available registered driver 7. -/
def dOffersW : DispatchState :=
  { dispatcher := 3, gateway := none,
    drivers := fun a => if a = 7 then drvAvailW else PrivateTaxiDispatch.defaultDriver,
    requests := fun i => if i = 1 then some reqFullW
      else if i = 2 then some reqEmptyW else none,
    passengerHistory := fun _ => [],
    driverHistory := fun _ => [],
    requestCounter := 2, driverCounter := 1, events := [] }


theorem addLoop_spec (input : List Addr) :
    ∀ s s' : PauserSetState, PauserSet.addLoop s input = .ok s' →
    (∀ a, s.pausers a = true ↔ a ∈ s.pauserList) → s.pauserList.Nodup →
    (0 : Addr) ∉ s.pauserList →
    s'.pauserList = s.pauserList ++ input ∧
    (∀ a, s'.pausers a = true ↔ a ∈ s'.pauserList) ∧
    s'.pauserList.Nodup ∧ (0 : Addr) ∉ s'.pauserList := by
  induction input with
  | nil =>
    intro s s' h hmem hnd hz
    simp only [PauserSet.addLoop] at h
    injection h with h
    subst h
    simp_all
  | cons p rest ih =>
    intro s s' h hmem hnd hz
    simp only [PauserSet.addLoop] at h
    split at h
    · exact absurd h (by simp)
    · split at h
      · exact absurd h (by simp)
      · rename_i hp0 hdup
        have hpnot : p ∉ s.pauserList := by
          intro hmem'
          exact hdup ((hmem p).mpr hmem')
        have h1 := ih _ _ h
          (by
            intro a
            constructor
            · intro ha
              by_cases hap : a = p
              · simp [hap]
              · simp only [hap, if_false] at ha
                simp [List.mem_append, (hmem a).mp ha]
            · intro ha
              by_cases hap : a = p
              · simp [hap]
              · simp only [List.mem_append, List.mem_singleton, hap, or_false] at ha
                simp [hap, (hmem a).mpr ha])
          (by
            simp only [List.nodup_append, List.nodup_singleton, true_and, and_true]
            exact ⟨hnd, by simpa [List.disjoint_singleton] using hpnot⟩)
          (by
            simp only [List.mem_append, List.mem_singleton]
            rintro (h0 | h0)
            · exact hz h0
            · exact hp0 h0.symm)
        refine ⟨?_, h1.2.1, h1.2.2.1, h1.2.2.2⟩
        rw [h1.1]
        simp

/-- C9: in every pauser-set state produced by the constructor (the only way a
`PauserSet` state arises, there being no mutating operation), `isPauser`
agrees with membership in `getAllPausers`; that list is duplicate-free,
contains no zero address, equals the construction list in order, and its
length is `getPauserCount`. -/
theorem pauserSet_constructor_invariants (input : List Addr) (s : PauserSetState)
    (h : PauserSet.construct input = .ok s) :
    (∀ a, PauserSet.isPauser s a = true ↔ a ∈ PauserSet.getAllPausers s) ∧
    (PauserSet.getAllPausers s).Nodup ∧
    (0 : Addr) ∉ PauserSet.getAllPausers s ∧
    PauserSet.getAllPausers s = input ∧
    PauserSet.getPauserCount s = (PauserSet.getAllPausers s).length := by
  simp only [PauserSet.construct] at h
  split at h
  · exact absurd h (by simp)
  · have h1 := addLoop_spec input PauserSet.initState s h
      (by intro a; simp [PauserSet.initState])
      (by simp [PauserSet.initState])
      (by simp [PauserSet.initState])
    refine ⟨h1.2.1, h1.2.2.1, h1.2.2.2, ?_, rfl⟩
    simpa [PauserSet.initState, PauserSet.getAllPausers] using h1.1

/-- Witness for C9 at the concrete construction list `[1, 2]`. -/
theorem pauserSet_constructor_invariants_witness :
    (PauserSet.getAllPausers psBuilt).Nodup ∧
    PauserSet.isPauser psBuilt 1 = true ∧
    PauserSet.getAllPausers psBuilt = [1, 2] := by
  have h := pauserSet_constructor_invariants [1, 2] psBuilt rfl
  exact ⟨h.2.1, (h.1 1).mpr (by rw [h.2.2.2.1]; simp), h.2.2.2.1⟩

theorem pause_ok {c : Addr} {s s' : GatewayState}
    (h : TaxiGateway.pause c s = .ok s') :
    PauserSet.isPauser s.pauserSet c = true ∧ s.paused = false ∧
    s' = { s with paused := true } := by
  unfold TaxiGateway.pause at h
  by_cases h1 : PauserSet.isPauser s.pauserSet c = false
  · simp [h1] at h
  · by_cases h2 : s.paused
    · simp [h1, h2] at h
    · rw [if_neg h1, if_neg h2] at h
      injection h with h
      exact ⟨by simpa using h1, by simpa using h2, h.symm⟩

theorem unpause_ok {c : Addr} {s s' : GatewayState}
    (h : TaxiGateway.unpause c s = .ok s') :
    c = s.owner ∧ s.paused = true ∧ s' = { s with paused := false } := by
  unfold TaxiGateway.unpause at h
  by_cases h1 : c ≠ s.owner
  · simp [h1] at h
  · by_cases h2 : s.paused = false
    · simp [h1, h2] at h
    · rw [if_neg h1, if_neg h2] at h
      injection h with h
      exact ⟨by simpa using h1, by simpa using h2, h.symm⟩

theorem setDecryptionContract_ok {c dc : Addr} {s s' : GatewayState}
    (h : TaxiGateway.setDecryptionContract c dc s = .ok s') :
    c = s.owner ∧ dc ≠ 0 ∧ s' = { s with decryptionContract := dc } := by
  unfold TaxiGateway.setDecryptionContract at h
  by_cases h1 : c ≠ s.owner
  · simp [h1] at h
  · by_cases h2 : dc = 0
    · simp [h1, h2] at h
    · rw [if_neg h1, if_neg h2] at h
      injection h with h
      exact ⟨by simpa using h1, h2, h.symm⟩

theorem requestDecryption_ok {k : Nat → Addr → List Nat → Nat} {b : Bool}
    {ts : Nat} {c : Addr} {ct : List Nat} {s : GatewayState}
    {y : GatewayState × Nat}
    (h : TaxiGateway.requestDecryption k b ts c ct s = .ok y) :
    s.paused = false ∧ s.decryptionContract ≠ 0 ∧ ct.length ≠ 0 ∧ b = true ∧
    y = (s, k ts c ct) := by
  unfold TaxiGateway.requestDecryption at h
  by_cases h1 : s.paused
  · simp [h1] at h
  · by_cases h2 : s.decryptionContract = 0
    · simp [h1, h2] at h
    · by_cases h3 : ct.length = 0
      · simp [h1, h2, h3] at h
      · by_cases h4 : b = false
        · simp [h1, h2, h3, h4] at h
        · rw [if_neg h1, if_neg h2, if_neg h3, if_neg h4] at h
          injection h with h
          exact ⟨by simpa using h1, h2, h3, by simpa using h4, h.symm⟩

theorem callKMSGeneration_ok {ok : Bool} {ret : List Nat} {c : Addr}
    {d : List Nat} {s : GatewayState} {y : GatewayState × List Nat}
    (h : TaxiGateway.callKMSGeneration ok ret c d s = .ok y) :
    s.paused = false ∧ y = (s, ret) := by
  unfold TaxiGateway.callKMSGeneration at h
  by_cases h1 : s.paused
  · simp [h1] at h
  · by_cases h2 : d.length = 0
    · simp [h1, h2] at h
    · by_cases h3 : ok = false
      · simp [h1, h2, h3] at h
      · rw [if_neg h1, if_neg h2, if_neg h3] at h
        injection h with h
        exact ⟨by simpa using h1, h.symm⟩

theorem applyGOp_frame (op : GatewayOp) (s s' : GatewayState)
    (h : applyGOp op s = .ok s') :
    s'.owner = s.owner ∧ s'.kmsGenerationContract = s.kmsGenerationContract ∧
    s'.pauserSet = s.pauserSet := by
  cases op with
  | pause c =>
    obtain ⟨-, -, rfl⟩ := pause_ok h
    exact ⟨rfl, rfl, rfl⟩
  | unpause c =>
    obtain ⟨-, -, rfl⟩ := unpause_ok h
    exact ⟨rfl, rfl, rfl⟩
  | setDecryptionContract c dc =>
    obtain ⟨-, -, rfl⟩ := setDecryptionContract_ok h
    exact ⟨rfl, rfl, rfl⟩
  | requestDecryption k b ts c ct =>
    simp only [applyGOp] at h
    cases hr : TaxiGateway.requestDecryption k b ts c ct s with
    | error e => rw [hr] at h; exact absurd h (by simp [Except.map])
    | ok y =>
      rw [hr] at h
      obtain ⟨-, -, -, -, rfl⟩ := requestDecryption_ok hr
      simp only [Except.map, Except.ok.injEq] at h
      subst h
      exact ⟨rfl, rfl, rfl⟩
  | callKMSGeneration ok ret c d =>
    simp only [applyGOp] at h
    cases hr : TaxiGateway.callKMSGeneration ok ret c d s with
    | error e => rw [hr] at h; exact absurd h (by simp [Except.map])
    | ok y =>
      rw [hr] at h
      obtain ⟨-, rfl⟩ := callKMSGeneration_ok hr
      simp only [Except.map, Except.ok.injEq] at h
      subst h
      exact ⟨rfl, rfl, rfl⟩

theorem applyGOp_requestDecryption_state {k : Nat → Addr → List Nat → Nat}
    {b : Bool} {ts : Nat} {c : Addr} {ct : List Nat} {s s' : GatewayState}
    (h : applyGOp (.requestDecryption k b ts c ct) s = .ok s') : s' = s := by
  simp only [applyGOp] at h
  cases hr : TaxiGateway.requestDecryption k b ts c ct s with
  | error e => rw [hr] at h; exact absurd h (by simp [Except.map])
  | ok y =>
    rw [hr] at h
    obtain ⟨-, -, -, -, rfl⟩ := requestDecryption_ok hr
    simp only [Except.map, Except.ok.injEq] at h
    exact h.symm

theorem applyGOp_callKMSGeneration_state {ok : Bool} {ret : List Nat}
    {c : Addr} {d : List Nat} {s s' : GatewayState}
    (h : applyGOp (.callKMSGeneration ok ret c d) s = .ok s') : s' = s := by
  simp only [applyGOp] at h
  cases hr : TaxiGateway.callKMSGeneration ok ret c d s with
  | error e => rw [hr] at h; exact absurd h (by simp [Except.map])
  | ok y =>
    rw [hr] at h
    obtain ⟨-, rfl⟩ := callKMSGeneration_ok hr
    simp only [Except.map, Except.ok.injEq] at h
    exact h.symm

/-- C1: across every successful gateway transition the owner is unchanged;
the paused flag switches false-to-true only by a `pause` call from a member
of the pauser set, and true-to-false only by an `unpause` call from the
owner fixed at construction; every entry point other than `pause`/`unpause`
leaves the flag unchanged; and `pause` by any caller outside the pauser set
(the owner included, unless separately a member) and `unpause` by any caller
other than the owner always revert. -/
theorem gateway_halt_flag_transitions :
    (∀ (s s' : GatewayState) (op : GatewayOp), applyGOp op s = .ok s' →
      s'.owner = s.owner ∧
      (s.paused = false → s'.paused = true →
        ∃ c, op = .pause c ∧ PauserSet.isPauser s.pauserSet c = true) ∧
      (s.paused = true → s'.paused = false → op = .unpause s.owner) ∧
      ((∀ c, op ≠ .pause c) → (∀ c, op ≠ .unpause c) → s'.paused = s.paused)) ∧
    (∀ (s : GatewayState) (c : Addr), PauserSet.isPauser s.pauserSet c = false →
      ∃ e, TaxiGateway.pause c s = .error e) ∧
    (∀ (s : GatewayState) (c : Addr), c ≠ s.owner →
      ∃ e, TaxiGateway.unpause c s = .error e) := by
  refine ⟨?_, ?_, ?_⟩
  · intro s s' op h
    refine ⟨(applyGOp_frame op s s' h).1, ?_, ?_, ?_⟩
    · intro hpf hpt
      cases op with
      | pause c =>
        obtain ⟨hP, -, rfl⟩ := pause_ok h
        exact ⟨c, rfl, hP⟩
      | unpause c =>
        obtain ⟨-, -, rfl⟩ := unpause_ok h
        simp at hpt
      | setDecryptionContract c dc =>
        obtain ⟨-, -, rfl⟩ := setDecryptionContract_ok h
        rw [hpf] at hpt
        exact absurd hpt (by simp)
      | requestDecryption k b ts c ct =>
        rw [applyGOp_requestDecryption_state h, hpf] at hpt
        exact absurd hpt (by simp)
      | callKMSGeneration ok ret c d =>
        rw [applyGOp_callKMSGeneration_state h, hpf] at hpt
        exact absurd hpt (by simp)
    · intro hpt hpf
      cases op with
      | pause c =>
        obtain ⟨-, hnp, -⟩ := pause_ok h
        rw [hpt] at hnp
        exact absurd hnp (by simp)
      | unpause c =>
        obtain ⟨hc, -, -⟩ := unpause_ok h
        rw [hc]
      | setDecryptionContract c dc =>
        obtain ⟨-, -, rfl⟩ := setDecryptionContract_ok h
        rw [hpt] at hpf
        exact absurd hpf (by simp)
      | requestDecryption k b ts c ct =>
        rw [applyGOp_requestDecryption_state h, hpt] at hpf
        exact absurd hpf (by simp)
      | callKMSGeneration ok ret c d =>
        rw [applyGOp_callKMSGeneration_state h, hpt] at hpf
        exact absurd hpf (by simp)
    · intro hnp hnu
      cases op with
      | pause c => exact absurd rfl (hnp c)
      | unpause c => exact absurd rfl (hnu c)
      | setDecryptionContract c dc =>
        obtain ⟨-, -, rfl⟩ := setDecryptionContract_ok h
        rfl
      | requestDecryption k b ts c ct =>
        rw [applyGOp_requestDecryption_state h]
      | callKMSGeneration ok ret c d =>
        rw [applyGOp_callKMSGeneration_state h]
  · intro s c hc
    refine ⟨.CallerNotAuthorizedPauser, ?_⟩
    simp [TaxiGateway.pause, hc]
  · intro s c hc
    refine ⟨.CallerNotOwner, ?_⟩
    simp [TaxiGateway.unpause, hc]

/-- Witness for C1: pausing a concrete gateway as its sole pauser succeeds
and preserves the owner; a pause attempt by the owner (not a pauser) and an
unpause attempt by the pauser (not the owner) both revert. -/
theorem gateway_halt_flag_transitions_witness :
    ({ gwOperW with paused := true } : GatewayState).owner = gwOperW.owner ∧
    (∃ e, TaxiGateway.pause 2 gwOperW = .error e) ∧
    (∃ e, TaxiGateway.unpause 1 gwPausedW = .error e) := by
  refine ⟨?_, ?_, ?_⟩
  · exact (gateway_halt_flag_transitions.1 gwOperW { gwOperW with paused := true }
      (.pause 1) rfl).1
  · exact gateway_halt_flag_transitions.2.1 gwOperW 2 (by decide)
  · exact gateway_halt_flag_transitions.2.2 gwPausedW 1 (by decide)

/-- C7: `isPublicDecryptAllowed` is a total Bool-valued query (it is a plain
function, so it can never revert), and it returns `false` exactly when the
gateway is paused, or the requester is the null address, or no decryption
contract is configured — hence `true` in every other case. -/
theorem isPublicDecryptAllowed_spec (s : GatewayState) (requester : Addr) :
    TaxiGateway.isPublicDecryptAllowed s requester = false ↔
    (s.paused = true ∨ requester = 0 ∨ s.decryptionContract = 0) := by
  unfold TaxiGateway.isPublicDecryptAllowed
  by_cases h1 : s.paused
  · simp [h1]
  · by_cases h2 : requester = 0
    · simp [h1, h2]
    · by_cases h3 : s.decryptionContract = 0
      · simp [h1, h2, h3]
      · simp [h1, h2, h3]

/-- Counterexample to C5's claimed check order: on a gateway that is halted
and has no decryption contract configured, `requestDecryption` reverts with
the halted error (`ContractIsPaused`, the spec's `NotOperational`), not with
`DecryptionContractNotSet` (the spec's `DisclosureBrokerNotSet`) as the
claimed "broker-unset before halted" ordering would require. -/
theorem requestDecryption_order_counterexample :
    gwPausedW.decryptionContract = 0 ∧ gwPausedW.paused = true ∧
    TaxiGateway.requestDecryption keccak0 true 0 5 [1] gwPausedW =
      .error .ContractIsPaused ∧
    GatewayError.ContractIsPaused ≠ GatewayError.DecryptionContractNotSet := by
  refine ⟨rfl, rfl, rfl, by decide⟩

/-- C5 (amended): `requestDecryption` checks the halted flag first (failing
`ContractIsPaused`), then the unset decryption contract (failing
`DecryptionContractNotSet`), then the empty ciphertext (failing
`EmptyCiphertext`); otherwise it computes the request id deterministically
from the timestamp, the caller and the ciphertext, forwards to the
decryption contract, fails `DecryptionRequestFailed` when that call does not
succeed, and returns the id with the gateway state unchanged. -/
theorem requestDecryption_spec (k : Nat → Addr → List Nat → Nat) (b : Bool)
    (ts : Nat) (c : Addr) (ct : List Nat) (s : GatewayState) :
    (s.paused = true →
      TaxiGateway.requestDecryption k b ts c ct s = .error .ContractIsPaused) ∧
    (s.paused = false → s.decryptionContract = 0 →
      TaxiGateway.requestDecryption k b ts c ct s = .error .DecryptionContractNotSet) ∧
    (s.paused = false → s.decryptionContract ≠ 0 → ct.length = 0 →
      TaxiGateway.requestDecryption k b ts c ct s = .error .EmptyCiphertext) ∧
    (s.paused = false → s.decryptionContract ≠ 0 → ct.length ≠ 0 → b = false →
      TaxiGateway.requestDecryption k b ts c ct s = .error .DecryptionRequestFailed) ∧
    (s.paused = false → s.decryptionContract ≠ 0 → ct.length ≠ 0 → b = true →
      TaxiGateway.requestDecryption k b ts c ct s = .ok (s, k ts c ct)) := by
  unfold TaxiGateway.requestDecryption
  refine ⟨?_, ?_, ?_, ?_, ?_⟩
  · intro h1; simp [h1]
  · intro h1 h2; simp [h1, h2]
  · intro h1 h2 h3; simp [h1, h2, h3]
  · intro h1 h2 h3 h4; simp [h1, h2, h3, h4]
  · intro h1 h2 h3 h4; simp [h1, h2, h3, h4]

/-- Witness for the amended C5 at concrete inputs: the halted error on the
halted gateway, and the successful forwarding (with the deterministic id)
on the operational configured gateway. -/
theorem requestDecryption_spec_witness :
    TaxiGateway.requestDecryption keccak0 true 3 5 [1, 2] gwPausedW =
      .error .ContractIsPaused ∧
    TaxiGateway.requestDecryption keccak0 true 3 5 [1, 2] gwOperW =
      .ok (gwOperW, keccak0 3 5 [1, 2]) := by
  constructor
  · exact (requestDecryption_spec keccak0 true 3 5 [1, 2] gwPausedW).1 rfl
  · exact (requestDecryption_spec keccak0 true 3 5 [1, 2] gwOperW).2.2.2.2 rfl
      (by decide) (by decide) rfl

/-- C10: every reachable gateway state reports the KMS generation contract
as configured, both through `isKMSGenerationConfigured` and through the
`kmsConfigured` component of `getGatewayStatus`: the constructor rejects a
zero KMS address and no operation ever changes the (immutable) reference. -/
theorem gateway_kms_always_configured (s : GatewayState) (h : GReachable s) :
    TaxiGateway.isKMSGenerationConfigured s = true ∧
    (TaxiGateway.getGatewayStatus s).kmsConfigured = true := by
  have hk : s.kmsGenerationContract ≠ 0 := by
    induction h with
    | init sender psAddr kms ps s0 hc =>
      unfold TaxiGateway.construct at hc
      by_cases h1 : psAddr = 0
      · simp [h1] at hc
      · by_cases h2 : kms = 0
        · simp [h1, h2] at hc
        · rw [if_neg h1, if_neg h2] at hc
          injection hc with hc
          subst hc
          exact h2
    | step s0 op s1 _ hstep ih =>
      rw [(applyGOp_frame op s0 s1 hstep).2.1]
      exact ih
  constructor
  · simpa [TaxiGateway.isKMSGenerationConfigured] using hk
  · simpa [TaxiGateway.getGatewayStatus] using hk

/-- Witness for C10 at the concretely constructed gateway. -/
theorem gateway_kms_always_configured_witness :
    TaxiGateway.isKMSGenerationConfigured gwBuilt = true :=
  (gateway_kms_always_configured gwBuilt (GReachable.init 2 1 9 psW gwBuilt rfl)).1

theorem whenOperational_eq_false {s : DispatchState} {g : GatewayState}
    (hg : s.gateway = some g) (hp : g.paused = true) :
    PrivateTaxiDispatch.whenOperational s = false := by
  unfold PrivateTaxiDispatch.whenOperational
  rw [hg]
  simp [TaxiGateway.isOperational, hp]

/-- C2: whenever the referenced gateway is halted, each of the eight
state-mutating dispatch entry points fails with `SystemPaused` — for every
dispatch state and every argument list, so the check precedes every other
validation of the call; under the all-or-nothing execution model of the
embedding a failed call produces no successor state, i.e. the engine state
is untouched. -/
theorem dispatch_paused_all_entry_points_fail (s : DispatchState)
    (g : GatewayState) (hg : s.gateway = some g) (hp : g.paused = true) :
    (∀ ts c, PrivateTaxiDispatch.registerDriver ts c s = .error .SystemPaused) ∧
    (∀ c lat lng, PrivateTaxiDispatch.updateLocation c lat lng s = .error .SystemPaused) ∧
    (∀ c v, PrivateTaxiDispatch.setAvailability c v s = .error .SystemPaused) ∧
    (∀ ts c a b d e f, PrivateTaxiDispatch.requestRide ts c a b d e f s = .error .SystemPaused) ∧
    (∀ ts c rid fare eta, PrivateTaxiDispatch.submitOffer ts c rid fare eta s = .error .SystemPaused) ∧
    (∀ c rid idx, PrivateTaxiDispatch.acceptOffer c rid idx s = .error .SystemPaused) ∧
    (∀ c rid rating, PrivateTaxiDispatch.completeRide c rid rating s = .error .SystemPaused) ∧
    (∀ c rid, PrivateTaxiDispatch.cancelRequest c rid s = .error .SystemPaused) := by
  have hw := whenOperational_eq_false hg hp
  refine ⟨?_, ?_, ?_, ?_, ?_, ?_, ?_, ?_⟩
  · intro ts c
    unfold PrivateTaxiDispatch.registerDriver
    rw [if_pos hw]
  · intro c lat lng
    unfold PrivateTaxiDispatch.updateLocation
    rw [if_pos hw]
  · intro c v
    unfold PrivateTaxiDispatch.setAvailability
    rw [if_pos hw]
  · intro ts c a b d e f
    unfold PrivateTaxiDispatch.requestRide
    rw [if_pos hw]
  · intro ts c rid fare eta
    unfold PrivateTaxiDispatch.submitOffer
    rw [if_pos hw]
  · intro c rid idx
    unfold PrivateTaxiDispatch.acceptOffer
    rw [if_pos hw]
  · intro c rid rating
    unfold PrivateTaxiDispatch.completeRide
    rw [if_pos hw]
  · intro c rid
    unfold PrivateTaxiDispatch.cancelRequest
    rw [if_pos hw]

/-- Witness for C2: on the engine wired to the paused gateway, concrete
registration and ride-request calls fail with `SystemPaused`. -/
theorem dispatch_paused_all_entry_points_fail_witness :
    PrivateTaxiDispatch.registerDriver 0 4 dPausedW = .error .SystemPaused ∧
    PrivateTaxiDispatch.requestRide 0 4 1 2 3 4 5 dPausedW = .error .SystemPaused := by
  have h := dispatch_paused_all_entry_points_fail dPausedW gwPausedW rfl rfl
  exact ⟨h.1 0 4, h.2.2.2.1 0 4 1 2 3 4 5⟩

/-- C8: the dispatch constructor accepts any gateway reference, the zero
(absent) one included; `setGateway` by the dispatcher with a non-zero
address replaces the reference unconditionally, while any other caller gets
`NotAuthorized` and the zero address gets `InvalidGatewayAddress`. -/
theorem dispatch_gateway_repointable :
    (∀ (d : Addr) (gw : Option GatewayState),
      (PrivateTaxiDispatch.construct d gw).gateway = gw ∧
      (PrivateTaxiDispatch.construct d gw).dispatcher = d) ∧
    (∀ (s : DispatchState) (g : GatewayState),
      PrivateTaxiDispatch.setGateway s.dispatcher (some g) s =
        .ok { s with gateway := some g }) ∧
    (∀ (s : DispatchState) (c : Addr) (gw : Option GatewayState),
      c ≠ s.dispatcher →
      PrivateTaxiDispatch.setGateway c gw s = .error .NotAuthorized) ∧
    (∀ s : DispatchState,
      PrivateTaxiDispatch.setGateway s.dispatcher none s =
        .error .InvalidGatewayAddress) := by
  refine ⟨?_, ?_, ?_, ?_⟩
  · intro d gw
    exact ⟨rfl, rfl⟩
  · intro s g
    unfold PrivateTaxiDispatch.setGateway
    rw [if_neg (by simp)]
  · intro s c gw hc
    unfold PrivateTaxiDispatch.setGateway
    rw [if_pos hc]
  · intro s
    unfold PrivateTaxiDispatch.setGateway
    rw [if_neg (by simp)]

/-- Witness for C8: concrete deployment without a gateway, a successful
re-pointing by the dispatcher, and the two concrete failure cases. -/
theorem dispatch_gateway_repointable_witness :
    (PrivateTaxiDispatch.construct 3 none).gateway = none ∧
    PrivateTaxiDispatch.setGateway 3 (some gwOperW) (PrivateTaxiDispatch.construct 3 none) =
      .ok { PrivateTaxiDispatch.construct 3 none with gateway := some gwOperW } ∧
    PrivateTaxiDispatch.setGateway 4 (some gwOperW) (PrivateTaxiDispatch.construct 3 none) =
      .error .NotAuthorized ∧
    PrivateTaxiDispatch.setGateway 3 none (PrivateTaxiDispatch.construct 3 none) =
      .error .InvalidGatewayAddress := by
  refine ⟨(dispatch_gateway_repointable.1 3 none).1, ?_, ?_, ?_⟩
  · exact dispatch_gateway_repointable.2.1 (PrivateTaxiDispatch.construct 3 none) gwOperW
  · exact dispatch_gateway_repointable.2.2.1 (PrivateTaxiDispatch.construct 3 none) 4
      (some gwOperW) (by decide)
  · exact dispatch_gateway_repointable.2.2.2 (PrivateTaxiDispatch.construct 3 none)

/-- C4: on an active request, called by the assigned driver while the system
is operational, `completeRide` fails `InvalidRating` exactly when the rating
exceeds 100 (a `uint8` rating cannot be below the lower boundary 0); for a
rating within the closed range 0–100 it succeeds, marks the request
completed, increments the driver's ride counter by exactly one and restores
the driver's availability. -/
theorem completeRide_rating_spec (s : DispatchState) (c : Addr)
    (rid rating : Nat) (r : RideRequest)
    (hop : PrivateTaxiDispatch.whenOperational s = true)
    (hr : s.requests rid = some r) (hc : c = r.assignedDriver)
    (hcomp : r.isCompleted = false) (hcanc : r.isCancelled = false) :
    (100 < rating →
      PrivateTaxiDispatch.completeRide c rid rating s = .error .InvalidRating) ∧
    (rating ≤ 100 → ∃ s',
      PrivateTaxiDispatch.completeRide c rid rating s = .ok s' ∧
      s'.requests rid = some { r with isCompleted := true } ∧
      (s'.drivers c).totalRides = (s.drivers c).totalRides + 1 ∧
      (s'.drivers c).isAvailable = true) := by
  have hguard : ¬(PrivateTaxiDispatch.whenOperational s = false) := by simp [hop]
  constructor
  · intro hrat
    unfold PrivateTaxiDispatch.completeRide
    rw [if_neg hguard]
    split
    · rename_i heq
      rw [hr] at heq
      exact absurd heq (by simp)
    · rename_i r' heq
      rw [hr] at heq
      injection heq with heq
      subst heq
      rw [if_neg (by simp [hc]), if_neg (by simp [hcomp, hcanc]), if_pos hrat]
  · intro hrat
    unfold PrivateTaxiDispatch.completeRide
    rw [if_neg hguard]
    split
    · rename_i heq
      rw [hr] at heq
      exact absurd heq (by simp)
    · rename_i r' heq
      rw [hr] at heq
      injection heq with heq
      subst heq
      rw [if_neg (by simp [hc]), if_neg (by simp [hcomp, hcanc]),
        if_neg (by omega : ¬(100 < rating))]
      exact ⟨_, rfl, by simp, by simp [hc], by simp [hc]⟩

/-- Witness for C4 at the concrete assigned request: both boundary ratings 0
and 100 succeed and one unit above the upper boundary fails `InvalidRating`. -/
theorem completeRide_rating_spec_witness :
    (∃ s', PrivateTaxiDispatch.completeRide 7 1 100 dAssignedW = .ok s' ∧
      s'.requests 1 = some { reqAssignedW with isCompleted := true } ∧
      (s'.drivers 7).totalRides = (dAssignedW.drivers 7).totalRides + 1 ∧
      (s'.drivers 7).isAvailable = true) ∧
    (∃ s', PrivateTaxiDispatch.completeRide 7 1 0 dAssignedW = .ok s' ∧
      s'.requests 1 = some { reqAssignedW with isCompleted := true } ∧
      (s'.drivers 7).totalRides = (dAssignedW.drivers 7).totalRides + 1 ∧
      (s'.drivers 7).isAvailable = true) ∧
    PrivateTaxiDispatch.completeRide 7 1 101 dAssignedW = .error .InvalidRating := by
  refine ⟨?_, ?_, ?_⟩
  · exact (completeRide_rating_spec dAssignedW 7 1 100 reqAssignedW rfl rfl rfl
      rfl rfl).2 (by decide)
  · exact (completeRide_rating_spec dAssignedW 7 1 0 reqAssignedW rfl rfl rfl
      rfl rfl).2 (by decide)
  · exact (completeRide_rating_spec dAssignedW 7 1 101 reqAssignedW rfl rfl rfl
      rfl rfl).1 (by decide)

theorem registerDriver_ok {ts : Nat} {c : Addr} {s s' : DispatchState}
    (h : PrivateTaxiDispatch.registerDriver ts c s = .ok s') :
    PrivateTaxiDispatch.whenOperational s = true ∧
    (s.drivers c).isRegistered = false ∧
    s' = { s with
      drivers := fun a => if a = c then
          { isRegistered := true, isAvailable := false, totalRides := 0,
            registrationTime := ts, encLat := 0, encLng := 0, encRating := 0 }
        else s.drivers a,
      driverCounter := s.driverCounter + 1,
      events := s.events ++ [.DriverRegistered c ts] } := by
  unfold PrivateTaxiDispatch.registerDriver at h
  split at h
  · exact absurd h (by simp)
  · rename_i h0
    split at h
    · exact absurd h (by simp)
    · rename_i h1
      injection h with h
      exact ⟨by simpa using h0, by simpa using h1, h.symm⟩

theorem updateLocation_ok {c : Addr} {lat lng : Nat} {s s' : DispatchState}
    (h : PrivateTaxiDispatch.updateLocation c lat lng s = .ok s') :
    PrivateTaxiDispatch.whenOperational s = true ∧
    (s.drivers c).isRegistered = true ∧
    s' = { s with
      drivers := fun a => if a = c then
          { s.drivers c with encLat := lat, encLng := lng }
        else s.drivers a,
      events := s.events ++ [.LocationUpdated c] } := by
  unfold PrivateTaxiDispatch.updateLocation at h
  split at h
  · exact absurd h (by simp)
  · rename_i h0
    split at h
    · exact absurd h (by simp)
    · rename_i h1
      injection h with h
      exact ⟨by simpa using h0, by simpa using h1, h.symm⟩

theorem setAvailability_ok {c : Addr} {v : Bool} {s s' : DispatchState}
    (h : PrivateTaxiDispatch.setAvailability c v s = .ok s') :
    PrivateTaxiDispatch.whenOperational s = true ∧
    (s.drivers c).isRegistered = true ∧
    s' = { s with
      drivers := fun a => if a = c then
          { s.drivers c with isAvailable := v }
        else s.drivers a } := by
  unfold PrivateTaxiDispatch.setAvailability at h
  split at h
  · exact absurd h (by simp)
  · rename_i h0
    split at h
    · exact absurd h (by simp)
    · rename_i h1
      injection h with h
      exact ⟨by simpa using h0, by simpa using h1, h.symm⟩

theorem requestRide_ok {ts : Nat} {c : Addr} {pLat pLng dLat dLng maxFare : Nat}
    {s s' : DispatchState}
    (h : PrivateTaxiDispatch.requestRide ts c pLat pLng dLat dLng maxFare s = .ok s') :
    PrivateTaxiDispatch.whenOperational s = true ∧
    s' = { s with
      requestCounter := s.requestCounter + 1,
      requests := fun i => if i = s.requestCounter + 1 then
          some { passenger := c, encPickupLat := pLat, encPickupLng := pLng,
                 encDestLat := dLat, encDestLng := dLng, encMaxFare := maxFare,
                 assignedDriver := 0, isCompleted := false, isCancelled := false,
                 requestTime := ts, offers := [] }
        else s.requests i,
      passengerHistory := fun a => if a = c then
          s.passengerHistory a ++ [s.requestCounter + 1]
        else s.passengerHistory a,
      events := s.events ++ [.RideRequested (s.requestCounter + 1) c] } := by
  unfold PrivateTaxiDispatch.requestRide at h
  split at h
  · exact absurd h (by simp)
  · rename_i h0
    injection h with h
    exact ⟨by simpa using h0, h.symm⟩

theorem submitOffer_ok {ts : Nat} {c : Addr} {rid fare eta : Nat}
    {s s' : DispatchState}
    (h : PrivateTaxiDispatch.submitOffer ts c rid fare eta s = .ok s') :
    PrivateTaxiDispatch.whenOperational s = true ∧
    ∃ r, s.requests rid = some r ∧
      (s.drivers c).isRegistered = true ∧
      (s.drivers c).isAvailable = true ∧
      r.isCompleted = false ∧ r.isCancelled = false ∧ r.assignedDriver = 0 ∧
      r.offers.length < PrivateTaxiDispatch.MAX_OFFERS ∧
      s' = { s with
        requests := fun i => if i = rid then
            some { r with offers := r.offers ++
              [{ driver := c, encFare := fare, encTime := eta, timestamp := ts }] }
          else s.requests i,
        events := s.events ++ [.OfferSubmitted rid c] } := by
  unfold PrivateTaxiDispatch.submitOffer at h
  split at h
  · exact absurd h (by simp)
  · rename_i h0
    split at h
    · exact absurd h (by simp)
    · rename_i r heq
      split at h
      · exact absurd h (by simp)
      · rename_i h1
        split at h
        · exact absurd h (by simp)
        · rename_i h2
          split at h
          · exact absurd h (by simp)
          · rename_i h3
            split at h
            · exact absurd h (by simp)
            · rename_i h4
              injection h with h
              have h3' : (r.isCompleted = false ∧ r.isCancelled = false) ∧
                  r.assignedDriver = 0 := by
                simpa [not_or] using h3
              exact ⟨by simpa using h0, r, heq, by simpa using h1,
                by simpa using h2, h3'.1.1, h3'.1.2, h3'.2,
                by omega, h.symm⟩

theorem acceptOffer_ok {c : Addr} {rid idx : Nat} {s s' : DispatchState}
    (h : PrivateTaxiDispatch.acceptOffer c rid idx s = .ok s') :
    PrivateTaxiDispatch.whenOperational s = true ∧
    ∃ r o, s.requests rid = some r ∧ c = r.passenger ∧
      r.offers.get? idx = some o ∧ r.assignedDriver = 0 ∧
      r.isCompleted = false ∧ r.isCancelled = false ∧
      s' = { s with
        requests := fun i => if i = rid then
            some { r with assignedDriver := o.driver }
          else s.requests i,
        drivers := fun a => if a = o.driver then
            { s.drivers o.driver with isAvailable := false }
          else s.drivers a,
        driverHistory := fun a => if a = o.driver then
            s.driverHistory a ++ [rid]
          else s.driverHistory a,
        events := s.events ++ [.RideMatched rid o.driver c] } := by
  unfold PrivateTaxiDispatch.acceptOffer at h
  split at h
  · exact absurd h (by simp)
  · rename_i h0
    split at h
    · exact absurd h (by simp)
    · rename_i r heq
      split at h
      · exact absurd h (by simp)
      · rename_i h1
        split at h
        · exact absurd h (by simp)
        · rename_i o hoeq
          split at h
          · exact absurd h (by simp)
          · rename_i h2
            split at h
            · exact absurd h (by simp)
            · rename_i h3
              injection h with h
              have h3' : r.isCompleted = false ∧ r.isCancelled = false := by
                simpa [not_or] using h3
              exact ⟨by simpa using h0, r, o, heq, by simpa using h1, hoeq,
                by simpa using h2, h3'.1, h3'.2, h.symm⟩

theorem completeRide_ok {c : Addr} {rid rating : Nat} {s s' : DispatchState}
    (h : PrivateTaxiDispatch.completeRide c rid rating s = .ok s') :
    PrivateTaxiDispatch.whenOperational s = true ∧
    ∃ r, s.requests rid = some r ∧ c = r.assignedDriver ∧
      r.isCompleted = false ∧ r.isCancelled = false ∧ rating ≤ 100 ∧
      s' = { s with
        requests := fun i => if i = rid then some { r with isCompleted := true }
          else s.requests i,
        drivers := fun a => if a = c then
            { s.drivers c with
              totalRides := (s.drivers c).totalRides + 1,
              isAvailable := true,
              encRating := ((s.drivers c).encRating + rating * 100) / 2 }
          else s.drivers a,
        events := s.events ++ [.RideCompleted rid c r.passenger] } := by
  unfold PrivateTaxiDispatch.completeRide at h
  split at h
  · exact absurd h (by simp)
  · rename_i h0
    split at h
    · exact absurd h (by simp)
    · rename_i r heq
      split at h
      · exact absurd h (by simp)
      · rename_i h1
        split at h
        · exact absurd h (by simp)
        · rename_i h2
          split at h
          · exact absurd h (by simp)
          · rename_i h3
            injection h with h
            have h2' : r.isCompleted = false ∧ r.isCancelled = false := by
              simpa [not_or] using h2
            exact ⟨by simpa using h0, r, heq, by simpa using h1,
              h2'.1, h2'.2, by omega, h.symm⟩

theorem cancelRequest_ok {c : Addr} {rid : Nat} {s s' : DispatchState}
    (h : PrivateTaxiDispatch.cancelRequest c rid s = .ok s') :
    PrivateTaxiDispatch.whenOperational s = true ∧
    ∃ r, s.requests rid = some r ∧ c = r.passenger ∧ r.assignedDriver = 0 ∧
      s' = { s with
        requests := fun i => if i = rid then some { r with isCancelled := true }
          else s.requests i,
        events := s.events ++ [.RideCancelled rid c] } := by
  unfold PrivateTaxiDispatch.cancelRequest at h
  split at h
  · exact absurd h (by simp)
  · rename_i h0
    split at h
    · exact absurd h (by simp)
    · rename_i r heq
      split at h
      · exact absurd h (by simp)
      · rename_i h1
        split at h
        · exact absurd h (by simp)
        · rename_i h2
          injection h with h
          exact ⟨by simpa using h0, r, heq, by simpa using h1,
            by simpa using h2, h.symm⟩

theorem setGateway_ok {c : Addr} {gw : Option GatewayState} {s s' : DispatchState}
    (h : PrivateTaxiDispatch.setGateway c gw s = .ok s') :
    c = s.dispatcher ∧ ∃ g, gw = some g ∧ s' = { s with gateway := some g } := by
  unfold PrivateTaxiDispatch.setGateway at h
  split at h
  · exact absurd h (by simp)
  · rename_i h0
    split at h
    · exact absurd h (by simp)
    · rename_i g
      injection h with h
      exact ⟨by simpa using h0, g, rfl, h.symm⟩

theorem emergencyPause_ok {s s' : DispatchState}
    (h : PrivateTaxiDispatch.emergencyPause s = .ok s') : s' = s := by
  unfold PrivateTaxiDispatch.emergencyPause at h
  split at h
  · exact absurd h (by simp)
  · injection h with h
    exact h.symm

theorem gatewayExtern_ok {gop : GatewayOp} {s s' : DispatchState}
    (h : applyDOp (.gatewayExtern gop) s = .ok s') :
    ∃ gw', s' = { s with gateway := gw' } := by
  simp only [applyDOp] at h
  split at h
  · injection h with h
    exact ⟨s.gateway, by rw [← h]⟩
  · rename_i g hg
    split at h
    · rename_i g' hg'
      injection h with h
      exact ⟨some g', h.symm⟩
    · injection h with h
      exact ⟨s.gateway, by rw [← h]⟩

theorem reqStatus_none {s : DispatchState} {id : Nat}
    (h : s.requests id = none) : reqStatus s id = .missing := by
  unfold reqStatus
  rw [h]

theorem reqStatus_some {s : DispatchState} {id : Nat} {r : RideRequest}
    (h : s.requests id = some r) :
    reqStatus s id =
      if r.isCompleted then .completed
      else if r.isCancelled then .cancelled
      else if r.assignedDriver ≠ 0 then .assigned
      else .opened := by
  unfold reqStatus
  rw [h]

theorem status_frame_at {s t : DispatchState} {id : Nat}
    (hreq : t.requests id = s.requests id) {P Q R : Prop} :
    statusStep (reqStatus s id) (reqStatus t id) ∧
    (∀ r, s.requests id = some r → ∃ r', t.requests id = some r' ∧
      (r.assignedDriver ≠ 0 → r'.assignedDriver = r.assignedDriver)) ∧
    (reqStatus s id = .opened → reqStatus t id = .assigned → P) ∧
    (reqStatus s id = .opened → reqStatus t id = .cancelled → Q) ∧
    (reqStatus s id = .assigned → reqStatus t id = .completed → R) := by
  have hst : reqStatus t id = reqStatus s id := by
    unfold reqStatus
    rw [hreq]
  refine ⟨Or.inl hst.symm, ?_, ?_, ?_, ?_⟩
  · intro r hr
    refine ⟨r, ?_, fun _ => rfl⟩
    rw [hreq]
    exact hr
  · intro h1 h2
    rw [hst, h1] at h2
    exact absurd h2 (by decide)
  · intro h1 h2
    rw [hst, h1] at h2
    exact absurd h2 (by decide)
  · intro h1 h2
    rw [hst, h1] at h2
    exact absurd h2 (by decide)

theorem status_frame_update {s t : DispatchState} {id : Nat} {r r' : RideRequest}
    (hs : s.requests id = some r) (ht : t.requests id = some r')
    (hco : r'.isCompleted = r.isCompleted) (hca : r'.isCancelled = r.isCancelled)
    (had : r'.assignedDriver = r.assignedDriver) {P Q R : Prop} :
    statusStep (reqStatus s id) (reqStatus t id) ∧
    (∀ r2, s.requests id = some r2 → ∃ r3, t.requests id = some r3 ∧
      (r2.assignedDriver ≠ 0 → r3.assignedDriver = r2.assignedDriver)) ∧
    (reqStatus s id = .opened → reqStatus t id = .assigned → P) ∧
    (reqStatus s id = .opened → reqStatus t id = .cancelled → Q) ∧
    (reqStatus s id = .assigned → reqStatus t id = .completed → R) := by
  have hst : reqStatus t id = reqStatus s id := by
    rw [reqStatus_some hs, reqStatus_some ht, hco, hca, had]
  refine ⟨Or.inl hst.symm, ?_, ?_, ?_, ?_⟩
  · intro r2 hr2
    rw [hs] at hr2
    injection hr2 with hr2
    subst hr2
    exact ⟨r', ht, fun _ => had⟩
  · intro h1 h2
    rw [hst, h1] at h2
    exact absurd h2 (by decide)
  · intro h1 h2
    rw [hst, h1] at h2
    exact absurd h2 (by decide)
  · intro h1 h2
    rw [hst, h1] at h2
    exact absurd h2 (by decide)

theorem requestRide_fields {ts : Nat} {c : Addr} {p1 p2 p3 p4 p5 : Nat}
    {s s' : DispatchState}
    (h : PrivateTaxiDispatch.requestRide ts c p1 p2 p3 p4 p5 s = .ok s') :
    PrivateTaxiDispatch.whenOperational s = true ∧
    s'.requestCounter = s.requestCounter + 1 ∧
    s'.requests (s.requestCounter + 1) =
      some { passenger := c, encPickupLat := p1, encPickupLng := p2,
             encDestLat := p3, encDestLng := p4, encMaxFare := p5,
             assignedDriver := 0, isCompleted := false, isCancelled := false,
             requestTime := ts, offers := [] } ∧
    (∀ i, i ≠ s.requestCounter + 1 → s'.requests i = s.requests i) := by
  obtain ⟨hop, rfl⟩ := requestRide_ok h
  exact ⟨hop, rfl, by simp, fun i hi => by simp [hi]⟩

theorem submitOffer_fields {ts : Nat} {c : Addr} {rid fare eta : Nat}
    {s s' : DispatchState}
    (h : PrivateTaxiDispatch.submitOffer ts c rid fare eta s = .ok s') :
    PrivateTaxiDispatch.whenOperational s = true ∧
    ∃ r, s.requests rid = some r ∧
      (s.drivers c).isRegistered = true ∧
      (s.drivers c).isAvailable = true ∧
      r.isCompleted = false ∧ r.isCancelled = false ∧ r.assignedDriver = 0 ∧
      r.offers.length < PrivateTaxiDispatch.MAX_OFFERS ∧
      s'.requests rid = some { r with offers := r.offers ++
        [{ driver := c, encFare := fare, encTime := eta, timestamp := ts }] } ∧
      (∀ i, i ≠ rid → s'.requests i = s.requests i) ∧
      s'.requestCounter = s.requestCounter ∧
      s'.events = s.events ++ [.OfferSubmitted rid c] := by
  obtain ⟨hop, r, heq, h1, h2, h3, h4, h5, hcap, rfl⟩ := submitOffer_ok h
  exact ⟨hop, r, heq, h1, h2, h3, h4, h5, hcap, by simp,
    fun i hi => by simp [hi], rfl, rfl⟩

theorem acceptOffer_fields {c : Addr} {rid idx : Nat} {s s' : DispatchState}
    (h : PrivateTaxiDispatch.acceptOffer c rid idx s = .ok s') :
    PrivateTaxiDispatch.whenOperational s = true ∧
    ∃ r o, s.requests rid = some r ∧ c = r.passenger ∧
      r.offers.get? idx = some o ∧ r.assignedDriver = 0 ∧
      r.isCompleted = false ∧ r.isCancelled = false ∧
      s'.requests rid = some { r with assignedDriver := o.driver } ∧
      (∀ i, i ≠ rid → s'.requests i = s.requests i) ∧
      s'.requestCounter = s.requestCounter := by
  obtain ⟨hop, r, o, heq, h1, h2, h3, h4, h5, rfl⟩ := acceptOffer_ok h
  exact ⟨hop, r, o, heq, h1, h2, h3, h4, h5, by simp,
    fun i hi => by simp [hi], rfl⟩

theorem completeRide_fields {c : Addr} {rid rating : Nat} {s s' : DispatchState}
    (h : PrivateTaxiDispatch.completeRide c rid rating s = .ok s') :
    PrivateTaxiDispatch.whenOperational s = true ∧
    ∃ r, s.requests rid = some r ∧ c = r.assignedDriver ∧
      r.isCompleted = false ∧ r.isCancelled = false ∧ rating ≤ 100 ∧
      s'.requests rid = some { r with isCompleted := true } ∧
      (∀ i, i ≠ rid → s'.requests i = s.requests i) ∧
      s'.requestCounter = s.requestCounter := by
  obtain ⟨hop, r, heq, h1, h2, h3, h4, rfl⟩ := completeRide_ok h
  exact ⟨hop, r, heq, h1, h2, h3, h4, by simp, fun i hi => by simp [hi], rfl⟩

theorem cancelRequest_fields {c : Addr} {rid : Nat} {s s' : DispatchState}
    (h : PrivateTaxiDispatch.cancelRequest c rid s = .ok s') :
    PrivateTaxiDispatch.whenOperational s = true ∧
    ∃ r, s.requests rid = some r ∧ c = r.passenger ∧ r.assignedDriver = 0 ∧
      s'.requests rid = some { r with isCancelled := true } ∧
      (∀ i, i ≠ rid → s'.requests i = s.requests i) ∧
      s'.requestCounter = s.requestCounter := by
  obtain ⟨hop, r, heq, h1, h2, rfl⟩ := cancelRequest_ok h
  exact ⟨hop, r, heq, h1, h2, by simp, fun i hi => by simp [hi], rfl⟩

theorem dstep_spec (s s' : DispatchState) (op : DispatchOp)
    (hsend : op.sender ≠ 0) (hinv : DInv s) (h : applyDOp op s = .ok s') :
    DInv s' ∧ RequestMachineStep op s s' := by
  obtain ⟨inv1, inv2, inv3, inv4, inv5⟩ := hinv
  cases op with
  | registerDriver ts c =>
    obtain ⟨-, -, rfl⟩ := registerDriver_ok h
    exact ⟨⟨inv1, inv2, inv3, inv4, inv5⟩, fun id => status_frame_at rfl⟩
  | updateLocation c lat lng =>
    obtain ⟨-, -, rfl⟩ := updateLocation_ok h
    exact ⟨⟨inv1, inv2, inv3, inv4, inv5⟩, fun id => status_frame_at rfl⟩
  | setAvailability c v =>
    obtain ⟨-, -, rfl⟩ := setAvailability_ok h
    exact ⟨⟨inv1, inv2, inv3, inv4, inv5⟩, fun id => status_frame_at rfl⟩
  | setGateway c gw =>
    obtain ⟨-, g, -, rfl⟩ := setGateway_ok h
    exact ⟨⟨inv1, inv2, inv3, inv4, inv5⟩, fun id => status_frame_at rfl⟩
  | emergencyPause c =>
    have hs' := emergencyPause_ok h
    subst hs'
    exact ⟨⟨inv1, inv2, inv3, inv4, inv5⟩, fun id => status_frame_at rfl⟩
  | gatewayExtern gop =>
    obtain ⟨gw', rfl⟩ := gatewayExtern_ok h
    exact ⟨⟨inv1, inv2, inv3, inv4, inv5⟩, fun id => status_frame_at rfl⟩
  | requestRide ts c p1 p2 p3 p4 p5 =>
    obtain ⟨-, hctr, hat, hother⟩ := requestRide_fields h
    refine ⟨⟨?_, ?_, ?_, ?_, ?_⟩, ?_⟩
    · intro id r2 hr2
      by_cases hid : id = s.requestCounter + 1
      · subst hid
        rw [hat] at hr2
        injection hr2 with hr2
        subst hr2
        simp
      · rw [hother id hid] at hr2
        exact inv1 id r2 hr2
    · intro id r2 hr2
      by_cases hid : id = s.requestCounter + 1
      · subst hid
        rw [hat] at hr2
        injection hr2 with hr2
        subst hr2
        simp
      · rw [hother id hid] at hr2
        exact inv2 id r2 hr2
    · intro id r2 o hr2 ho
      by_cases hid : id = s.requestCounter + 1
      · subst hid
        rw [hat] at hr2
        injection hr2 with hr2
        subst hr2
        simp at ho
      · rw [hother id hid] at hr2
        exact inv3 id r2 o hr2 ho
    · intro id hgt
      rw [hctr] at hgt
      rw [hother id (by omega)]
      exact inv4 id (by omega)
    · intro id r2 hr2
      by_cases hid : id = s.requestCounter + 1
      · subst hid
        rw [hat] at hr2
        injection hr2 with hr2
        subst hr2
        simp
      · rw [hother id hid] at hr2
        exact inv5 id r2 hr2
    · intro id
      by_cases hid : id = s.requestCounter + 1
      · subst hid
        have hold := reqStatus_none (inv4 (s.requestCounter + 1) (by omega))
        have hnew : reqStatus s' (s.requestCounter + 1) = .opened := by
          rw [reqStatus_some hat]
          simp
        refine ⟨?_, ?_, ?_, ?_, ?_⟩
        · rw [hold, hnew]
          exact Or.inr (Or.inl ⟨rfl, rfl⟩)
        · intro r2 hr2
          rw [inv4 (s.requestCounter + 1) (by omega)] at hr2
          exact absurd hr2 (by simp)
        · intro h1 _
          rw [hold] at h1
          exact absurd h1 (by decide)
        · intro h1 _
          rw [hold] at h1
          exact absurd h1 (by decide)
        · intro h1 _
          rw [hold] at h1
          exact absurd h1 (by decide)
      · exact status_frame_at (hother id hid)
  | submitOffer ts c rid fare eta =>
    obtain ⟨-, r, heq, -, -, hco, hca, had, hcap, hat, hother, hctr, -⟩ :=
      submitOffer_fields h
    have hc0 : c ≠ 0 := hsend
    refine ⟨⟨?_, ?_, ?_, ?_, ?_⟩, ?_⟩
    · intro id r2 hr2
      by_cases hid : id = rid
      · subst hid
        rw [hat] at hr2
        injection hr2 with hr2
        subst hr2
        simp [hco]
      · rw [hother id hid] at hr2
        exact inv1 id r2 hr2
    · intro id r2 hr2
      by_cases hid : id = rid
      · subst hid
        rw [hat] at hr2
        injection hr2 with hr2
        subst hr2
        simp [hco]
      · rw [hother id hid] at hr2
        exact inv2 id r2 hr2
    · intro id r2 o hr2 ho
      by_cases hid : id = rid
      · subst hid
        rw [hat] at hr2
        injection hr2 with hr2
        subst hr2
        simp at ho
        rcases ho with ho | ho
        · exact inv3 id r o heq ho
        · rw [ho]
          exact hc0
      · rw [hother id hid] at hr2
        exact inv3 id r2 o hr2 ho
    · intro id hgt
      rw [hctr] at hgt
      have hne : id ≠ rid := by
        intro hcontra
        subst hcontra
        rw [inv4 id hgt] at heq
        exact absurd heq (by simp)
      rw [hother id hne]
      exact inv4 id hgt
    · intro id r2 hr2
      by_cases hid : id = rid
      · subst hid
        rw [hat] at hr2
        injection hr2 with hr2
        subst hr2
        simp
        omega
      · rw [hother id hid] at hr2
        exact inv5 id r2 hr2
    · intro id
      by_cases hid : id = rid
      · subst hid
        exact status_frame_update heq hat rfl rfl rfl
      · exact status_frame_at (hother id hid)
  | acceptOffer c rid idx =>
    obtain ⟨-, r, o, heq, -, hget, had, hco, hca, hat, hother, hctr⟩ :=
      acceptOffer_fields h
    have homem : o ∈ r.offers := List.get?_mem hget
    have hod : o.driver ≠ 0 := inv3 rid r o heq homem
    refine ⟨⟨?_, ?_, ?_, ?_, ?_⟩, ?_⟩
    · intro id r2 hr2
      by_cases hid : id = rid
      · subst hid
        rw [hat] at hr2
        injection hr2 with hr2
        subst hr2
        simp [hco]
      · rw [hother id hid] at hr2
        exact inv1 id r2 hr2
    · intro id r2 hr2
      by_cases hid : id = rid
      · subst hid
        rw [hat] at hr2
        injection hr2 with hr2
        subst hr2
        simp [hco]
      · rw [hother id hid] at hr2
        exact inv2 id r2 hr2
    · intro id r2 o2 hr2 ho
      by_cases hid : id = rid
      · subst hid
        rw [hat] at hr2
        injection hr2 with hr2
        subst hr2
        exact inv3 id r o2 heq ho
      · rw [hother id hid] at hr2
        exact inv3 id r2 o2 hr2 ho
    · intro id hgt
      rw [hctr] at hgt
      have hne : id ≠ rid := by
        intro hcontra
        subst hcontra
        rw [inv4 id hgt] at heq
        exact absurd heq (by simp)
      rw [hother id hne]
      exact inv4 id hgt
    · intro id r2 hr2
      by_cases hid : id = rid
      · subst hid
        rw [hat] at hr2
        injection hr2 with hr2
        subst hr2
        exact inv5 id r heq
      · rw [hother id hid] at hr2
        exact inv5 id r2 hr2
    · intro id
      by_cases hid : id = rid
      · subst hid
        have hold : reqStatus s id = .opened := by
          rw [reqStatus_some heq]
          simp [hco, hca, had]
        have hnew : reqStatus s' id = .assigned := by
          rw [reqStatus_some hat]
          simp [hco, hca, hod]
        refine ⟨?_, ?_, ?_, ?_, ?_⟩
        · rw [hold, hnew]
          exact Or.inr (Or.inr (Or.inl ⟨rfl, rfl⟩))
        · intro r2 hr2
          rw [heq] at hr2
          injection hr2 with hr2
          subst hr2
          exact ⟨_, hat, fun hna => absurd had hna⟩
        · intro _ _
          exact ⟨c, idx, rfl⟩
        · intro _ h2
          rw [hnew] at h2
          exact absurd h2 (by decide)
        · intro h1 _
          rw [hold] at h1
          exact absurd h1 (by decide)
      · exact status_frame_at (hother id hid)
  | completeRide c rid rating =>
    obtain ⟨-, r, heq, hcd, hco, hca, -, hat, hother, hctr⟩ := completeRide_fields h
    have hc0 : c ≠ 0 := hsend
    have hand : r.assignedDriver ≠ 0 := by
      rw [← hcd]
      exact hc0
    refine ⟨⟨?_, ?_, ?_, ?_, ?_⟩, ?_⟩
    · intro id r2 hr2
      by_cases hid : id = rid
      · subst hid
        rw [hat] at hr2
        injection hr2 with hr2
        subst hr2
        simp [hca]
      · rw [hother id hid] at hr2
        exact inv1 id r2 hr2
    · intro id r2 hr2
      by_cases hid : id = rid
      · subst hid
        rw [hat] at hr2
        injection hr2 with hr2
        subst hr2
        intro _
        exact hand
      · rw [hother id hid] at hr2
        exact inv2 id r2 hr2
    · intro id r2 o2 hr2 ho
      by_cases hid : id = rid
      · subst hid
        rw [hat] at hr2
        injection hr2 with hr2
        subst hr2
        exact inv3 id r o2 heq ho
      · rw [hother id hid] at hr2
        exact inv3 id r2 o2 hr2 ho
    · intro id hgt
      rw [hctr] at hgt
      have hne : id ≠ rid := by
        intro hcontra
        subst hcontra
        rw [inv4 id hgt] at heq
        exact absurd heq (by simp)
      rw [hother id hne]
      exact inv4 id hgt
    · intro id r2 hr2
      by_cases hid : id = rid
      · subst hid
        rw [hat] at hr2
        injection hr2 with hr2
        subst hr2
        exact inv5 id r heq
      · rw [hother id hid] at hr2
        exact inv5 id r2 hr2
    · intro id
      by_cases hid : id = rid
      · subst hid
        have hold : reqStatus s id = .assigned := by
          rw [reqStatus_some heq]
          simp [hco, hca, hand]
        have hnew : reqStatus s' id = .completed := by
          rw [reqStatus_some hat]
          simp
        refine ⟨?_, ?_, ?_, ?_, ?_⟩
        · rw [hold, hnew]
          exact Or.inr (Or.inr (Or.inr (Or.inr ⟨rfl, rfl⟩)))
        · intro r2 hr2
          rw [heq] at hr2
          injection hr2 with hr2
          subst hr2
          exact ⟨_, hat, fun _ => rfl⟩
        · intro h1 _
          rw [hold] at h1
          exact absurd h1 (by decide)
        · intro h1 _
          rw [hold] at h1
          exact absurd h1 (by decide)
        · intro _ _
          exact ⟨c, rating, rfl⟩
      · exact status_frame_at (hother id hid)
  | cancelRequest c rid =>
    obtain ⟨-, r, heq, -, had, hat, hother, hctr⟩ := cancelRequest_fields h
    have hcomp : r.isCompleted = false := by
      by_cases hcp : r.isCompleted = true
      · exact absurd had (inv2 rid r heq hcp)
      · simpa using hcp
    refine ⟨⟨?_, ?_, ?_, ?_, ?_⟩, ?_⟩
    · intro id r2 hr2
      by_cases hid : id = rid
      · subst hid
        rw [hat] at hr2
        injection hr2 with hr2
        subst hr2
        simp [hcomp]
      · rw [hother id hid] at hr2
        exact inv1 id r2 hr2
    · intro id r2 hr2
      by_cases hid : id = rid
      · subst hid
        rw [hat] at hr2
        injection hr2 with hr2
        subst hr2
        simp [hcomp]
      · rw [hother id hid] at hr2
        exact inv2 id r2 hr2
    · intro id r2 o2 hr2 ho
      by_cases hid : id = rid
      · subst hid
        rw [hat] at hr2
        injection hr2 with hr2
        subst hr2
        exact inv3 id r o2 heq ho
      · rw [hother id hid] at hr2
        exact inv3 id r2 o2 hr2 ho
    · intro id hgt
      rw [hctr] at hgt
      have hne : id ≠ rid := by
        intro hcontra
        subst hcontra
        rw [inv4 id hgt] at heq
        exact absurd heq (by simp)
      rw [hother id hne]
      exact inv4 id hgt
    · intro id r2 hr2
      by_cases hid : id = rid
      · subst hid
        rw [hat] at hr2
        injection hr2 with hr2
        subst hr2
        exact inv5 id r heq
      · rw [hother id hid] at hr2
        exact inv5 id r2 hr2
    · intro id
      by_cases hid : id = rid
      · subst hid
        have hnew : reqStatus s' id = .cancelled := by
          rw [reqStatus_some hat]
          simp [hcomp]
        by_cases hcc : r.isCancelled = true
        · have hold : reqStatus s id = .cancelled := by
            rw [reqStatus_some heq]
            simp [hcomp, hcc]
          refine ⟨?_, ?_, ?_, ?_, ?_⟩
          · rw [hold, hnew]
            exact Or.inl rfl
          · intro r2 hr2
            rw [heq] at hr2
            injection hr2 with hr2
            subst hr2
            exact ⟨_, hat, fun hna => absurd had hna⟩
          · intro h1 _
            rw [hold] at h1
            exact absurd h1 (by decide)
          · intro h1 _
            rw [hold] at h1
            exact absurd h1 (by decide)
          · intro h1 _
            rw [hold] at h1
            exact absurd h1 (by decide)
        · have hcc' : r.isCancelled = false := by simpa using hcc
          have hold : reqStatus s id = .opened := by
            rw [reqStatus_some heq]
            simp [hcomp, hcc', had]
          refine ⟨?_, ?_, ?_, ?_, ?_⟩
          · rw [hold, hnew]
            exact Or.inr (Or.inr (Or.inr (Or.inl ⟨rfl, rfl⟩)))
          · intro r2 hr2
            rw [heq] at hr2
            injection hr2 with hr2
            subst hr2
            exact ⟨_, hat, fun hna => absurd had hna⟩
          · intro _ h2
            rw [hnew] at h2
            exact absurd h2 (by decide)
          · intro _ _
            exact ⟨c, rfl⟩
          · intro h1 _
            rw [hold] at h1
            exact absurd h1 (by decide)
      · exact status_frame_at (hother id hid)

theorem DInv_init (d : Addr) (gw : Option GatewayState) :
    DInv (PrivateTaxiDispatch.construct d gw) := by
  refine ⟨fun id r hr => by simp [PrivateTaxiDispatch.construct] at hr,
    fun id r hr => by simp [PrivateTaxiDispatch.construct] at hr,
    fun id r o hr ho => by simp [PrivateTaxiDispatch.construct] at hr,
    fun id h => rfl,
    fun id r hr => by simp [PrivateTaxiDispatch.construct] at hr⟩

theorem DInv_reachable {s : DispatchState} (h : DReachable s) : DInv s := by
  induction h with
  | init d gw => exact DInv_init d gw
  | step s0 op s1 hr hsend hstep ih => exact (dstep_spec s0 s1 op hsend ih hstep).1

/-- C3: across every successful transition from a reachable engine state,
each ride-request slot follows the spec's state machine (stutter, creation,
Open to Assigned, Open to Cancelled, or Assigned to Completed — so no move
ever leaves Completed or Cancelled); the three proper transitions happen
only through `acceptOffer`, `cancelRequest` and `completeRide` respectively;
a request with an assigned driver keeps that driver forever; and after the
step no request is simultaneously completed and cancelled. -/
theorem rideRequest_state_machine (s s' : DispatchState) (op : DispatchOp)
    (hs : DReachable s) (hsend : op.sender ≠ 0)
    (h : applyDOp op s = .ok s') :
    RequestMachineStep op s s' ∧
    ∀ id r', s'.requests id = some r' →
      ¬(r'.isCompleted = true ∧ r'.isCancelled = true) := by
  have hst := dstep_spec s s' op hsend (DInv_reachable hs) h
  exact ⟨hst.2, hst.1.1⟩

/-- Witness for C3 at a concrete reachable step: creating request 1 is an
allowed move of slot 1, and the slot is not completed-and-cancelled. -/
theorem rideRequest_state_machine_witness :
    statusStep (reqStatus dInit0 1) (reqStatus dReq1 1) ∧
    (∀ r', dReq1.requests 1 = some r' →
      ¬(r'.isCompleted = true ∧ r'.isCancelled = true)) := by
  have h := rideRequest_state_machine dInit0 dReq1 (.requestRide 0 4 1 2 3 4 5)
    (DReachable.init 3 none) (by decide) rfl
  exact ⟨(h.1 1).1, h.2 1⟩

/-- C6: once a request's offer list has reached the cap, `submitOffer` by an
eligible driver fails `TooManyOffers`; below the cap a successful
`submitOffer` appends exactly one offer and logs `OfferSubmitted`; and in
every reachable engine state no offer list exceeds the cap. -/
theorem offer_cap_spec :
    (∀ (s : DispatchState) (ts : Nat) (c : Addr) (rid fare eta : Nat)
      (r : RideRequest),
      PrivateTaxiDispatch.whenOperational s = true →
      s.requests rid = some r →
      (s.drivers c).isRegistered = true →
      (s.drivers c).isAvailable = true →
      r.isCompleted = false → r.isCancelled = false → r.assignedDriver = 0 →
      PrivateTaxiDispatch.MAX_OFFERS ≤ r.offers.length →
      PrivateTaxiDispatch.submitOffer ts c rid fare eta s =
        .error .TooManyOffers) ∧
    (∀ (s : DispatchState) (ts : Nat) (c : Addr) (rid fare eta : Nat)
      (r : RideRequest),
      PrivateTaxiDispatch.whenOperational s = true →
      s.requests rid = some r →
      (s.drivers c).isRegistered = true →
      (s.drivers c).isAvailable = true →
      r.isCompleted = false → r.isCancelled = false → r.assignedDriver = 0 →
      r.offers.length < PrivateTaxiDispatch.MAX_OFFERS →
      ∃ s', PrivateTaxiDispatch.submitOffer ts c rid fare eta s = .ok s' ∧
        s'.requests rid = some { r with offers := r.offers ++
          [{ driver := c, encFare := fare, encTime := eta, timestamp := ts }] } ∧
        s'.events = s.events ++ [.OfferSubmitted rid c]) ∧
    (∀ s : DispatchState, DReachable s → ∀ id r, s.requests id = some r →
      r.offers.length ≤ PrivateTaxiDispatch.MAX_OFFERS) := by
  refine ⟨?_, ?_, ?_⟩
  · intro s ts c rid fare eta r hop heq hreg hav hco hca had hcap
    unfold PrivateTaxiDispatch.submitOffer
    rw [if_neg (by simp [hop])]
    split
    · rename_i hmem
      rw [heq] at hmem
      exact absurd hmem (by simp)
    · rename_i r' hmem
      rw [heq] at hmem
      injection hmem with hmem
      subst hmem
      rw [if_neg (by simp [hreg]), if_neg (by simp [hav]),
        if_neg (by simp [hco, hca, had]), if_pos hcap]
  · intro s ts c rid fare eta r hop heq hreg hav hco hca had hcap
    unfold PrivateTaxiDispatch.submitOffer
    rw [if_neg (by simp [hop])]
    split
    · rename_i hmem
      rw [heq] at hmem
      exact absurd hmem (by simp)
    · rename_i r' hmem
      rw [heq] at hmem
      injection hmem with hmem
      subst hmem
      rw [if_neg (by simp [hreg]), if_neg (by simp [hav]),
        if_neg (by simp [hco, hca, had]), if_neg (by omega)]
      exact ⟨_, rfl, by simp, by simp⟩
  · intro s hs id r hr
    exact (DInv_reachable hs).2.2.2.2 id r hr

/-- Witness for C6: driver 7's offer on the full request 1 fails
`TooManyOffers`, while the same offer on the empty request 2 succeeds and
appends exactly one offer. -/
theorem offer_cap_spec_witness :
    PrivateTaxiDispatch.submitOffer 0 7 1 10 20 dOffersW =
      .error .TooManyOffers ∧
    (∃ s', PrivateTaxiDispatch.submitOffer 0 7 2 10 20 dOffersW = .ok s' ∧
      s'.requests 2 = some { reqEmptyW with offers := reqEmptyW.offers ++
        [{ driver := 7, encFare := 10, encTime := 20, timestamp := 0 }] } ∧
      s'.events = dOffersW.events ++ [.OfferSubmitted 2 7]) := by
  constructor
  · exact offer_cap_spec.1 dOffersW 0 7 1 10 20 reqFullW rfl rfl rfl rfl rfl rfl
      rfl (by decide)
  · exact offer_cap_spec.2.1 dOffersW 0 7 2 10 20 reqEmptyW rfl rfl rfl rfl rfl
      rfl rfl (by decide)

/-- Witness for C7 at concrete gateways: the halted broker-less gateway
denies disclosure, and the operational configured gateway allows it for a
non-null requester. -/
theorem isPublicDecryptAllowed_spec_witness :
    TaxiGateway.isPublicDecryptAllowed gwPausedW 5 = false ∧
    TaxiGateway.isPublicDecryptAllowed gwOperW 5 = true := by
  constructor
  · exact (isPublicDecryptAllowed_spec gwPausedW 5).mpr (Or.inl rfl)
  · by_cases h : TaxiGateway.isPublicDecryptAllowed gwOperW 5 = false
    · exact absurd ((isPublicDecryptAllowed_spec gwOperW 5).mp h) (by decide)
    · simpa using h
